import Mathlib

/-!
Verification of the SPARC V8 context-aware trap service routine handler and the
interrupt mask controller of the FreeOSEK RTOS SPARC port, embedded shallowly.

Sources:
* `sparc/trapwindowoveflowhandler.s` — the trap handler routine
  `sparcTaskContextAwareTrapHandler` (assembly), embedded below as a collection
  of Lean functions on an explicit machine state, one per labelled block of the
  routine, composed in the order of the code.
* `sparc/Os_Internal_Arch.c` — the interrupt mask controller and IRQ handler
  registration functions, embedded as pure functions on a small state record.

Conventions of the embedding:
* 32-bit machine words are natural numbers reduced modulo 2^32 (`w32`).
* Memory is a function from byte addresses to words; a word store at address
  `a` affects exactly the location `w32 a`.
* The register-window file keeps, for every window `w`, its eight local
  registers (`wlocal w k`) and its eight in registers (`win w k`).  Per the
  SPARC register window overlap, the out registers of window `w` are the in
  registers of window `(w - 1) mod NWINDOWS`; in particular the stack pointer
  `%sp` (out register 6) visible in window `w` is `win ((w-1) mod NWINDOWS) 6`.
* Global variables of the program (`system_in_interrupt_context`,
  `active_thread_context_stack_pointer`, `detected_sparc_register_windows`)
  are distinct C objects and are modelled as named fields of the state; the
  `sethi %hi(..)/%lo(..)` address-formation instruction pairs that the
  assembly uses to reach them are modelled by direct accesses to those fields.
  A `sethi` that merely forms an address in a scratch register whose value is
  dead afterwards is not tracked.
* The two external collaborator functions `sparcInterruptHandlerCaller` and
  `sparcTaskContextReplacementHandlerCaller` are parameters of the embedding
  (arbitrary state transformers).
-/

namespace SparcTrap

/-- Reduction of a natural number to a 32-bit machine word. -/
def w32 (x : Nat) : Nat := x % 4294967296

/-- All 32 bits set; the value of a full 32-bit mask. -/
def mask32 : Nat := 4294967295

/-- Bitwise complement within a 32-bit word, as used by the `andn` instruction
and the C `~` operator on `uint32`. -/
def notw (x : Nat) : Nat := mask32 ^^^ (x &&& mask32)

/-- The SPARC `sll` instruction: logical shift left; the shift count is taken
from the low five bits, and the result is a 32-bit word. -/
def sll (x n : Nat) : Nat := w32 (x <<< (n % 32))

/-- The SPARC `srl` instruction: logical shift right of a 32-bit word; the
shift count is taken from the low five bits. -/
def srl (x n : Nat) : Nat := w32 x >>> (n % 32)

/-- Unsigned 32-bit subtraction (the SPARC `sub` instruction, wrapping). -/
def wsub (a b : Nat) : Nat := (a + (4294967296 - b % 4294967296)) % 4294967296

/-! ## Interrupt mask controller (`sparc/Os_Internal_Arch.c`) -/

/-- State of the interrupt mask controller: the three mask globals
`sparcISR1HandlersMask`, `sparcISR2HandlersMask`, `sparcCurrentInterruptMask`
of `Os_Internal_Arch.c`, together with the IRQMP interrupt mask hardware
register that `grRegisterWrite` targets. -/
structure IrqMaskState where
  isr1HandlersMask : Nat
  isr2HandlersMask : Nat
  currentInterruptMask : Nat
  hwInterruptMaskReg : Nat

/-- Embedding of `sparcEnableAllInterrupts` (Os_Internal_Arch.c): or both
handler class masks into the current mask and write it to the hardware mask
register. -/
def sparcEnableAllInterrupts (s : IrqMaskState) : IrqMaskState :=
  let newMask := s.currentInterruptMask ||| (s.isr1HandlersMask ||| s.isr2HandlersMask)
  { s with currentInterruptMask := newMask, hwInterruptMaskReg := newMask }

/-- Embedding of `sparcDisableAllInterrupts` (Os_Internal_Arch.c): clear the
bits of both handler class masks from the current mask and write it to the
hardware mask register. -/
def sparcDisableAllInterrupts (s : IrqMaskState) : IrqMaskState :=
  let newMask := s.currentInterruptMask &&& notw (s.isr1HandlersMask ||| s.isr2HandlersMask)
  { s with currentInterruptMask := newMask, hwInterruptMaskReg := newMask }

/-- Embedding of `sparcEnableISR2Interrupts` (Os_Internal_Arch.c): or only the
ISR2 handlers mask into the current mask. -/
def sparcEnableISR2Interrupts (s : IrqMaskState) : IrqMaskState :=
  let newMask := s.currentInterruptMask ||| s.isr2HandlersMask
  { s with currentInterruptMask := newMask, hwInterruptMaskReg := newMask }

/-- Embedding of `sparcDisableISR2Interrupts` (Os_Internal_Arch.c): clear only
the bits of the ISR2 handlers mask from the current mask. -/
def sparcDisableISR2Interrupts (s : IrqMaskState) : IrqMaskState :=
  let newMask := s.currentInterruptMask &&& notw s.isr2HandlersMask
  { s with currentInterruptMask := newMask, hwInterruptMaskReg := newMask }

/-- State touched by the IRQ handler registration functions: the mask state,
the fifteen-entry `sparcIRQHandlersTable` (handler references modelled as
words), and the IRQMP interrupt clear hardware register. -/
structure IrqRegState where
  masks : IrqMaskState
  handlersTable : List Nat
  hwInterruptClearReg : Nat

/-- Initial value of `sparcIRQHandlersTable` (Os_Internal_Arch.c): fifteen
null handler references. -/
def sparcIRQHandlersTable : List Nat := List.replicate 15 0

/-- The array index `irq - 1` computed by the registration functions, in
unsigned 32-bit arithmetic (the IRQ number type is an unsigned integer
declared in a header outside these sources; any unsigned width produces the
same in-bounds behaviour, and 32 bits are used here). -/
def irqTableIndex (irq : Nat) : Nat := wsub irq 1

/-- Embedding of `sparcRegisterISR1Handler` (Os_Internal_Arch.c): clear the
pending latch of the line, or the line into the ISR1 class mask, and store the
handler reference at table index `irq - 1`.  The embedded array indexing is
fallible: the out-of-bounds branch yields `none`. -/
def sparcRegisterISR1Handler (s : IrqRegState) (newHandler irq : Nat) : Option IrqRegState :=
  let newInterruptMask := sll 1 irq
  let s := { s with hwInterruptClearReg := newInterruptMask }
  let s := { s with masks := { s.masks with
                isr1HandlersMask := s.masks.isr1HandlersMask ||| newInterruptMask } }
  if irqTableIndex irq < s.handlersTable.length then
    some { s with handlersTable := s.handlersTable.set (irqTableIndex irq) newHandler }
  else
    none

/-- Embedding of `sparcRegisterISR2Handler` (Os_Internal_Arch.c): same as the
ISR1 variant but recording the line in the ISR2 class mask. -/
def sparcRegisterISR2Handler (s : IrqRegState) (newHandler irq : Nat) : Option IrqRegState :=
  let newInterruptMask := sll 1 irq
  let s := { s with hwInterruptClearReg := newInterruptMask }
  let s := { s with masks := { s.masks with
                isr2HandlersMask := s.masks.isr2HandlersMask ||| newInterruptMask } }
  if irqTableIndex irq < s.handlersTable.length then
    some { s with handlersTable := s.handlersTable.set (irqTableIndex irq) newHandler }
  else
    none

/-! ## Machine state for the trap handler (`sparc/trapwindowoveflowhandler.s`) -/

/-- Memory, word-addressed by byte address. -/
def Mem : Type := Nat → Nat

/-- Store one 32-bit word at byte address `a` (the `st` instruction and each
half of an `std`). -/
def st (m : Mem) (a v : Nat) : Mem :=
  fun x => if x = w32 a then w32 v else m x

/-- Load one 32-bit word from byte address `a` (the `ld` instruction and each
half of an `ldd`). -/
def ld (m : Mem) (a : Nat) : Nat := w32 (m (w32 a))

/-- Store a sequence of words at consecutive word addresses starting at `b`
(a run of `st`/`std` instructions at offsets 0, 4, 8, ...). -/
def stSeq : Mem → Nat → List Nat → Mem
  | m, _, [] => m
  | m, b, v :: vs => stSeq (st m b v) (b + 4) vs

/-- The CWP field mask of the PSR (`SPARC_PSR_CWP_MASK` of `sparcassembly.h`,
a header outside these sources; the SPARC V8 architecture fixes the CWP field
at PSR bits 0 to 4). -/
def SPARC_PSR_CWP_MASK : Nat := 31

/-- The ET (enable traps) bit mask of the PSR (`SPARC_PSR_ET_MASK` of
`sparcassembly.h`, outside these sources; the SPARC V8 architecture fixes ET
at PSR bit 5). -/
def SPARC_PSR_ET_MASK : Nat := 32

/-- The PIL (processor interrupt level) field mask of the PSR
(`SPARC_PSR_PIL_MASK` of `sparcassembly.h`, outside these sources; the SPARC
V8 architecture fixes PIL at PSR bits 8 to 11; the handler shifts the level
into place with `sll ..., 0x08`). -/
def SPARC_PSR_PIL_MASK : Nat := 3840

/-- Modelled from the spec: `SPARC_NON_RESTORABLE_BITS_IN_PSR` is defined in
`sparcassembly.h`, which is not among these sources.  The spec designates the
non-restorable status bits as "those reflecting the live hardware
priority/trap-enable state at the moment of return", which are the PIL field
and the ET bit. -/
def SPARC_NON_RESTORABLE_BITS_IN_PSR : Nat :=
  SPARC_PSR_PIL_MASK ||| SPARC_PSR_ET_MASK

/-- The CWP field of a PSR value. -/
def cwp (p : Nat) : Nat := p &&& SPARC_PSR_CWP_MASK

/-- A PSR value with its CWP field replaced (the window-switching effect of
the `save` and `restore` instructions on the PSR register). -/
def setCwp (p c : Nat) : Nat :=
  (p &&& notw SPARC_PSR_CWP_MASK) ||| (c &&& SPARC_PSR_CWP_MASK)

/-- Machine state of the trap handler.  Window `w` register file: `wlocal w k`
is local register `%l<k>` and `win w k` is in register `%i<k>` of window `w`;
by the SPARC window overlap, out register `%o<k>` of window `w` is in register
`%i<k>` of window `(w - 1) mod nwin`. -/
structure TrapState where
  psr : Nat
  wim : Nat
  yreg : Nat
  g1 : Nat
  g2 : Nat
  g3 : Nat
  g4 : Nat
  g5 : Nat
  g6 : Nat
  g7 : Nat
  wlocal : Nat → Nat → Nat
  win : Nat → Nat → Nat
  mem : Mem
  inIntCtx : Nat
  activeCtx : Nat
  nwin : Nat
  nullCtx : Nat

/-- The window preceding `w` in the `save` direction (one position below,
modulo the number of implemented windows). -/
def prevw (s : TrapState) (w : Nat) : Nat := (w + s.nwin - 1) % s.nwin

/-- Read local register `%l<k>` of the current window. -/
def rdl (s : TrapState) (k : Nat) : Nat := w32 (s.wlocal (cwp s.psr) k)

/-- Read in register `%i<k>` of the current window. -/
def rdi (s : TrapState) (k : Nat) : Nat := w32 (s.win (cwp s.psr) k)

/-- Read out register `%o<k>` of the current window (= in register `%i<k>` of
the window below). -/
def rdo (s : TrapState) (k : Nat) : Nat := w32 (s.win (prevw s (cwp s.psr)) k)

/-- Pointwise update of a two-argument register file. -/
def updw (f : Nat → Nat → Nat) (w k v : Nat) : Nat → Nat → Nat :=
  fun w' k' => if w' = w then (if k' = k then w32 v else f w' k') else f w' k'

/-- Write local register `%l<k>` of the current window. -/
def wrl (s : TrapState) (k v : Nat) : TrapState :=
  { s with wlocal := updw s.wlocal (cwp s.psr) k v }

/-- Write in register `%i<k>` of the current window. -/
def wri (s : TrapState) (k v : Nat) : TrapState :=
  { s with win := updw s.win (cwp s.psr) k v }

/-- Write out register `%o<k>` of the current window (= in register `%i<k>` of
the window below). -/
def wro (s : TrapState) (k v : Nat) : TrapState :=
  { s with win := updw s.win (prevw s (cwp s.psr)) k v }

/-- The `wr ..., %psr` instruction: write the PSR register (all fields,
including CWP). -/
def wrpsr (s : TrapState) (v : Nat) : TrapState := { s with psr := v }

/-- The stack pointer `%sp` (out register 6) of the current window. -/
def sp (s : TrapState) : Nat := rdo s 6

/-- The frame pointer `%fp` (in register 6) of the current window. -/
def fp (s : TrapState) : Nat := rdi s 6

/-- The `restore` instruction's window movement: CWP advances by one, modulo
the number of implemented windows. -/
def restoreWin (s : TrapState) : TrapState :=
  { s with psr := setCwp s.psr ((cwp s.psr + 1) % s.nwin) }

/-- The `save` instruction's window movement: CWP recedes by one, modulo the
number of implemented windows. -/
def saveWin (s : TrapState) : TrapState :=
  { s with psr := setCwp s.psr ((cwp s.psr + s.nwin - 1) % s.nwin) }

/-- Write the WIM register: the hardware implements only one bit per existing
window and ignores the rest (see the comment at `nested_window_overflow`). -/
def wrwim (s : TrapState) (v : Nat) : TrapState :=
  { s with wim := w32 v &&& (2 ^ s.nwin - 1) }

/-! ## Common entry code -/

/-- Store a value into the `system_in_interrupt_context` global variable. -/
def storeIntCtxFlag (s : TrapState) (v : Nat) : TrapState := { s with inIntCtx := v }

/-- Common entry code of `sparcTaskContextAwareTrapHandler` (lines 138-164):
unify the trap return address pair — for a precise software trap (bit 5 of
the vector index `%l3` set) replace `(%l1, %l2)` by `(%l2, %l2 + 4)` — then
load the `system_in_interrupt_context` flag into `%l5` and store 1 into it
(the store sits in the branch delay slot, so it happens on both the outermost
and the nested path). -/
def commonEntry (s : TrapState) : TrapState :=
  let s :=
    if rdl s 3 &&& 32 = 0 then s
    else
      let s := wrl s 1 (rdl s 2)
      wrl s 2 (rdl s 1 + 4)
  let s := wrl s 5 s.inIntCtx
  let s := wrl s 6 1
  storeIntCtxFlag s 1

/-- The trap return address pair `(%l1, %l2)` of the current window: the
first and second instruction executed after `jmp %l1; rett %l2`. -/
def resumePair (s : TrapState) : Nat × Nat := (rdl s 1, rdl s 2)

/-! ## Outermost trap case -/

/-- Set-up of the outermost register-window dump (lines 220-263): back up
`%g4`-`%g7` into `%l4`-`%l7`, compute NWINDOWS-1 into `%g7`, the mask of the
window immediately above the trap window into `%g6`, read the WIM into `%g5`,
and exchange `%g3` with `%l0` (the trap-entry PSR) by the XOR swap. -/
def outermostDumpSetup (s : TrapState) : TrapState :=
  let s := wrl s 4 s.g4
  let s := wrl s 5 s.g5
  let s := wrl s 6 s.g6
  let s := wrl s 7 s.g7
  let g7 := wsub s.nwin 1
  let g4 := w32 ((rdl s 0 &&& SPARC_PSR_CWP_MASK) + 1) &&& g7
  let g6 := sll 1 g4
  let g5 := s.wim
  let l0old := rdl s 0
  let s := wrl s 0 s.g3
  { s with g3 := l0old, g4 := g4, g5 := g5, g6 := g6, g7 := g7 }

/-- One register window's sixteen words in store order: `%l0`-`%l7` then
`%i0`-`%i7` (the eight `std` instructions of a window dump or spill). -/
def windowWords (s : TrapState) (w : Nat) : List Nat :=
  [w32 (s.wlocal w 0), w32 (s.wlocal w 1), w32 (s.wlocal w 2), w32 (s.wlocal w 3),
   w32 (s.wlocal w 4), w32 (s.wlocal w 5), w32 (s.wlocal w 6), w32 (s.wlocal w 7),
   w32 (s.win w 0), w32 (s.win w 1), w32 (s.win w 2), w32 (s.win w 3),
   w32 (s.win w 4), w32 (s.win w 5), w32 (s.win w 6), w32 (s.win w 7)]

/-- One iteration of `outermost_dump_windows_loop` (lines 273-314): `restore`
into the next window up, store its sixteen words to its own stack pointer,
then rotate the invalid-window mask copy `%g5` one bit right within the
implemented windows (using the valid-WIM-bits mask built in `%g4`). -/
def dumpIter (s : TrapState) : TrapState :=
  let s := restoreWin s
  let w := cwp s.psr
  let s := { s with mem := stSeq s.mem (sp s) (windowWords s w) }
  let g4 := srl s.g5 1
  let g5 := g4 ||| sll s.g5 s.g7
  let g4 := wsub (sll 2 s.g7) 1
  let g5 := g5 &&& g4
  { s with g4 := g4, g5 := g5 }

/-- The dump loop (lines 273-320): iterate `dumpIter` until the rotated mask
`%g5` equals the mask `%g6` of the window above the trap window, i.e. until
the next `restore` would enter the invalid window.  The loop walks the
circular window set at most once, so the window count bounds the recursion. -/
def outermostDumpLoop : Nat → TrapState → TrapState
  | 0, s => s
  | fuel + 1, s =>
    let s := dumpIter s
    if s.g5 = s.g6 then s else outermostDumpLoop fuel s

/-- End of the dump (`outermost_dump_done`, lines 322-355): make the window
above the trap window the invalid one (`mov %g6, %wim`), return to the trap
window (`mov %g3, %psr`), and XOR-swap the trap-entry PSR back into `%l0`. -/
def outermostDumpFinish (s : TrapState) : TrapState :=
  let s := wrwim s s.g6
  let s := wrpsr s s.g3
  let l0old := rdl s 0
  let s := wrl s 0 s.g3
  { s with g3 := l0old }

/-- The whole outermost window dump (lines 176-355). -/
def outermostDump (s : TrapState) : TrapState :=
  outermostDumpFinish (outermostDumpLoop s.nwin (outermostDumpSetup s))

/-- The nineteen words of a task context record in store order (offsets 0 to
72): PSR, `%g1`-`%g7`, `%i0`-`%i7`, Y, PC, nPC.  On the outermost path the
original values of `%g4`-`%g7` live in `%l4`-`%l7` (they were relocated by
`outermostDumpSetup`), which is what lines 404-405 store. -/
def outermostCtxWords (s : TrapState) : List Nat :=
  [rdl s 0, s.g1, s.g2, s.g3, rdl s 4, rdl s 5, rdl s 6, rdl s 7,
   rdi s 0, rdi s 1, rdi s 2, rdi s 3, rdi s 4, rdi s 5, rdi s 6, rdi s 7,
   s.yreg, rdl s 1, rdl s 2]

/-- The destination record of the outermost context save: the record
designated by `active_thread_context_stack_pointer`, or the static
`sparcNullTaskContextData` record when the designated record's frozen flag
(its word at offset 76) is nonzero. -/
def outermostSaveDest (s : TrapState) : Nat :=
  if ld s.mem (s.activeCtx + 76) ≠ 0 then s.nullCtx else s.activeCtx

/-- `outermost_save_context` (lines 367-419): load the active context pointer
into `%g4`, test its frozen-flag word at offset 76; if nonzero, redirect to
`sparcNullTaskContextData` and update the active context pointer
(`outermost_null_task_context`, lines 378-394); then store the nineteen
context words at offsets 0-72 of the destination
(`outermost_regular_context`, lines 396-419).
The redirect of `outermost_null_task_context` (lines 378-394): load the
address of `sparcNullTaskContextData` into `%g5`, store it into
`active_thread_context_stack_pointer`, and copy it to `%g4`. -/
def outermostNullRedirect (s : TrapState) : TrapState :=
  { s with g5 := s.nullCtx, g4 := s.nullCtx, activeCtx := s.nullCtx }

/-- Destination selection of `outermost_regular_context` when the frozen flag
was clear: `%g4` keeps the active context pointer and `%g5` the (zero) flag
word. -/
def outermostRegularDest (s : TrapState) (g4 frozen : Nat) : TrapState :=
  { s with g4 := g4, g5 := frozen }

/-- The stores of `outermost_regular_context` (lines 396-419): write the
nineteen context words at offsets 0-72 of `%g4`; `mov %y, %l5` clobbers
`%l5` after its original value has been stored. -/
def outermostStoreWords (s : TrapState) : TrapState :=
  wrl { s with mem := stSeq s.mem s.g4 (outermostCtxWords s) } 5 s.yreg

def outermostSaveContext (s : TrapState) : TrapState :=
  let g4 := s.activeCtx
  let frozen := ld s.mem (g4 + 76)
  if frozen ≠ 0 then outermostStoreWords (outermostNullRedirect s)
  else outermostStoreWords (outermostRegularDest s g4 frozen)

/-- Stack frame reservation for calling ABI-compliant C functions
(`SPARC_STACK_BARE_MINIMUM_STACK_FRAME_RESERVATION_SIZE` of
`sparcassembly.h`, outside these sources; the SPARC ABI minimum frame is 96
bytes — the exact value is immaterial to the properties proved here). -/
def SPARC_STACK_BARE_MINIMUM_STACK_FRAME_RESERVATION_SIZE : Nat := 96

/-- Line 456: `sub %fp, SPARC_STACK_BARE_MINIMUM_..., %sp` — carve an
auxiliary stack frame for the collaborator call. -/
def outermostMakeCallFrame (s : TrapState) : TrapState :=
  wro s 6 (wsub (fp s) SPARC_STACK_BARE_MINIMUM_STACK_FRAME_RESERVATION_SIZE)

/-! ## Handler caller dispatch (identical on both paths) -/

/-- The PSR value in force while the collaborator executes, as a function of
the trap-entry PSR `%l0` and the vector index `%l3`: for the
context-replacement kind (bit 5 set) only ET is set (lines 519-526, 898-905);
for the interrupt kind the PIL field is first replaced by the low four bits
of the index and then ET is set (lines 487-506, 866-885). -/
def psrDuringHandlerCall (l0 l3 : Nat) : Nat :=
  if l3 &&& 32 ≠ 0 then l0 ||| SPARC_PSR_ET_MASK
  else ((l0 &&& notw SPARC_PSR_PIL_MASK) ||| sll (l3 &&& 15) 8) ||| SPARC_PSR_ET_MASK

/-- State at which `sparcInterruptHandlerCaller` begins
(`outermost_set_interrupt_handler_caller_address`, lines 485-512, and the
identical `nested_set_interrupt_handler_caller_address`, lines 864-891):
raise the PIL to the low four bits of `%l3`, write the PSR, set ET, write the
PSR again, and place `%l3 & 0x1f` in `%o0` (the call's delay slot). -/
def interruptCallEntry (s : TrapState) : TrapState :=
  let l4 := rdl s 0 &&& notw SPARC_PSR_PIL_MASK
  let l5 := sll (rdl s 3 &&& 15) 8
  let l4 := l4 ||| l5
  let s := wrl s 4 l4
  let s := wrl s 5 l5
  let s := wrpsr s l4
  let l4 := l4 ||| SPARC_PSR_ET_MASK
  let s := wrl s 4 l4
  let s := wrpsr s l4
  wro s 0 (rdl s 3 &&& 31)

/-- State at which `sparcTaskContextReplacementHandlerCaller` begins
(`outermost_set_task_context_replacement_handler_address`, lines 517-532, and
the identical nested block, lines 896-911): set ET without touching the PIL,
write the PSR, and place `%l3 & 0x1f` in `%o0`. -/
def replacementCallEntry (s : TrapState) : TrapState :=
  let l4 := rdl s 0 ||| SPARC_PSR_ET_MASK
  let s := wrl s 4 l4
  let s := wrpsr s l4
  wro s 0 (rdl s 3 &&& 31)

/-- Handler caller dispatch (lines 479-532 on the outermost path, 858-911 on
the nested path — the two blocks are instruction-for-instruction identical):
bit 5 of `%l3` selects the collaborator; `ic` is the external
`sparcInterruptHandlerCaller` and `tc` the external
`sparcTaskContextReplacementHandlerCaller`. -/
def handlerDispatch (ic tc : TrapState → TrapState) (s : TrapState) : TrapState :=
  if rdl s 3 &&& 32 ≠ 0 then tc (replacementCallEntry s)
  else ic (interruptCallEntry s)

/-! ## Outermost exit code -/

/-- `outermost_disable_traps` (lines 534-555): rewrite the PSR with the
archived trap-entry value `%l0` (restoring the original PIL and clearing ET),
then release the auxiliary call frame. -/
def outermostDisableTraps (s : TrapState) : TrapState :=
  let s := wrpsr s (rdl s 0)
  wro s 6 (sp s + SPARC_STACK_BARE_MINIMUM_STACK_FRAME_RESERVATION_SIZE)

/-- Lines 557-563: store zero into `system_in_interrupt_context` — executed
only by the outermost handling instance. -/
def outermostClearFlag (s : TrapState) : TrapState :=
  storeIntCtxFlag s 0

/-- Lines 565-576: re-read `active_thread_context_stack_pointer` (it may have
changed during the collaborator call) into `%sp`. -/
def outermostLoadContextPointer (s : TrapState) : TrapState :=
  wro s 6 s.activeCtx

/-- The partial status-register restore of the outermost exit (lines
597-605): bits of `SPARC_NON_RESTORABLE_BITS_IN_PSR` are kept from the
current `%l0` (which at this point equals the PSR register, rewritten from
`%l0` at `outermost_disable_traps`), all other bits come from the archived
value. -/
def restoredPsr (cur saved : Nat) : Nat :=
  (cur &&& SPARC_NON_RESTORABLE_BITS_IN_PSR) |||
    (saved &&& notw SPARC_NON_RESTORABLE_BITS_IN_PSR)

/-- Outermost context restore (lines 580-629): load the archived PSR from the
record at `%sp`, merge it into `%l0` through the non-restorable-bits filter,
and restore `%g1`-`%g7`, `%i0`-`%i7`, Y, PC and nPC verbatim. -/
def outermostRestoreContext (s : TrapState) : TrapState :=
  let b := sp s
  let l4 := ld s.mem b
  let s := wrl s 4 l4
  let s := wrl s 5 SPARC_NON_RESTORABLE_BITS_IN_PSR
  let s := wrl s 0 (restoredPsr (rdl s 0) l4)
  let s := wrl s 4 (l4 &&& notw SPARC_NON_RESTORABLE_BITS_IN_PSR)
  let s := { s with
    g1 := ld s.mem (b + 4), g2 := ld s.mem (b + 8), g3 := ld s.mem (b + 12),
    g4 := ld s.mem (b + 16), g5 := ld s.mem (b + 20), g6 := ld s.mem (b + 24),
    g7 := ld s.mem (b + 28) }
  let s := wri s 0 (ld s.mem (b + 32))
  let s := wri s 1 (ld s.mem (b + 36))
  let s := wri s 2 (ld s.mem (b + 40))
  let s := wri s 3 (ld s.mem (b + 44))
  let s := wri s 4 (ld s.mem (b + 48))
  let s := wri s 5 (ld s.mem (b + 52))
  let s := wri s 6 (ld s.mem (b + 56))
  let s := wri s 7 (ld s.mem (b + 60))
  let s := wrl s 5 (ld s.mem (b + 64))
  let s := { s with yreg := rdl s 5 }
  let s := wrl s 1 (ld s.mem (b + 68))
  wrl s 2 (ld s.mem (b + 72))

/-- Start of the forced window underflow of the outermost exit (lines
631-648): copy the WIM to `%l4`, rotate it one bit left within the
implemented windows, write it back and `restore` into the previously
invalid window.  The rotated values are computed from the WIM copy held in
`%l4` (`mov %wim, %l4` at line 634).  The whole refill (lines 631-676)
rotates the WIM, refills the entered window's sixteen words from the
restored thread's stack (`%sp` there is its in register 6, by the window
overlap), and `save`s back into the trap window while re-carving the
minimum call frame. -/
def outermostRefillRotate (s : TrapState) : TrapState :=
  let l4a := w32 s.wim
  let l5 := wsub s.nwin 1
  let l6 := sll l4a 1
  let l4 := srl l4a l5 ||| l6
  let s := wrl s 4 s.wim
  let s := wrl s 5 l5
  let s := wrl s 6 l6
  let s := wrl s 4 l4
  let s := wrwim s l4
  restoreWin s

/-- The sixteen loads of the underflow refill (lines 650-667): refill the
newly entered window from the restored thread's stack pointer. -/
def outermostRefillLoads (s : TrapState) : TrapState :=
  let b := sp s
  let s := wrl s 0 (ld s.mem b)
  let s := wrl s 1 (ld s.mem (b + 4))
  let s := wrl s 2 (ld s.mem (b + 8))
  let s := wrl s 3 (ld s.mem (b + 12))
  let s := wrl s 4 (ld s.mem (b + 16))
  let s := wrl s 5 (ld s.mem (b + 20))
  let s := wrl s 6 (ld s.mem (b + 24))
  let s := wrl s 7 (ld s.mem (b + 28))
  let s := wri s 0 (ld s.mem (b + 32))
  let s := wri s 1 (ld s.mem (b + 36))
  let s := wri s 2 (ld s.mem (b + 40))
  let s := wri s 3 (ld s.mem (b + 44))
  let s := wri s 4 (ld s.mem (b + 48))
  let s := wri s 5 (ld s.mem (b + 52))
  let s := wri s 6 (ld s.mem (b + 56))
  wri s 7 (ld s.mem (b + 60))

/-- End of the underflow refill (lines 669-676): `save` back into the trap
window, re-carving the minimum call frame below the refilled window's stack
pointer in the delay slot. -/
def outermostRefillSaveBack (s : TrapState) : TrapState :=
  let newsp := sp s + SPARC_STACK_BARE_MINIMUM_STACK_FRAME_RESERVATION_SIZE
  wro (saveWin s) 6 newsp

def outermostUnderflowRefill (s : TrapState) : TrapState :=
  outermostRefillSaveBack (outermostRefillLoads (outermostRefillRotate s))

/-- `common_return_from_trap` (lines 1043-1065): write the (filtered) `%l0`
into the PSR and transfer control to the unified pair `(%l1, %l2)` by
`jmp %l1; rett %l2`. -/
def commonReturnFromTrap (s : TrapState) : TrapState :=
  wrpsr s (rdl s 0)

/-! ## Nested trap case -/

/-- Register part of `nested_window_overflow` (lines 719-749): rotate the WIM
copy `%l5` one bit right via `%l4`, back `%g5` up in `%l7` and carry the new
WIM value in `%g5` across the window change. -/
def nestedSpillRegs (s : TrapState) (l5 l7 : Nat) : TrapState :=
  let l4 := srl l5 1
  let s := wrl s 4 l4
  let l5 := l4 ||| sll l5 l7
  let s := wrl s 5 l5
  let s := wrl s 7 s.g5
  { s with g5 := l5 }

/-- The spill of `nested_window_overflow` (lines 752-775): `save` into the
least recently used window, store its sixteen words to its own stack pointer,
write the carried WIM value, `restore` back to the trap window and recover
`%g5` from `%l7`. -/
def nestedWindowOverflow (s : TrapState) (l5 l7 : Nat) : TrapState :=
  let s := saveWin (nestedSpillRegs s l5 l7)
  let s := { s with mem := stSeq s.mem (sp s) (windowWords s (cwp s.psr)) }
  let s := wrwim s s.g5
  let s := restoreWin s
  { s with g5 := rdl s 7 }

/-- The `nested_trap_handler` free-frame check (lines 691-717): compute
NWINDOWS-1 into `%l7`, the mask of the trap window itself (the CWP field of
the trap-entry PSR `%l0`, with no increment) into `%l6`, read the WIM into
`%l5`, and spill one window exactly when the trap window overlaps the invalid
window. -/
def nestedEnsureFreeFrame (s : TrapState) : TrapState :=
  let l7 := wsub s.nwin 1
  let l4 := rdl s 0 &&& SPARC_PSR_CWP_MASK
  let l6 := sll 1 l4
  let l5 := s.wim
  let s := wrl (wrl (wrl (wrl s 7 l7) 4 l4) 6 l6) 5 l5
  if l5 ≠ l6 then s else nestedWindowOverflow s l5 l7

/-- Stack reservation for one context record
(`SPARC_STACK_BASE_CONTEXT_RESERVATION_SIZE` of `sparcassembly.h`, outside
these sources; 80 bytes — 76 used, rounded to a double word, as the comments
at lines 786-790 explain — the exact value is immaterial to the properties
proved here). -/
def SPARC_STACK_BASE_CONTEXT_RESERVATION_SIZE : Nat := 80

/-- The nineteen context words of the nested save in store order: identical
layout to the outermost save, but `%g4`-`%g7` are stored from the globals
themselves (lines 801-802) since the nested path never relocated them. -/
def nestedCtxWords (s : TrapState) : List Nat :=
  [rdl s 0, s.g1, s.g2, s.g3, w32 s.g4, w32 s.g5, w32 s.g6, w32 s.g7,
   rdi s 0, rdi s 1, rdi s 2, rdi s 3, rdi s 4, rdi s 5, rdi s 6, rdi s 7,
   s.yreg, rdl s 1, rdl s 2]

/-- Nested context save (lines 781-816): make room for the record on the
interrupted trap's stack (`sub %fp, ..., %sp`) and store the nineteen context
words at offsets 0-72 of the new `%sp`; `mov %y, %l5` clobbers `%l5`. -/
def nestedSaveContext (s : TrapState) : TrapState :=
  let s := wro s 6 (wsub (fp s) SPARC_STACK_BASE_CONTEXT_RESERVATION_SIZE)
  let s := { s with mem := stSeq s.mem (sp s) (nestedCtxWords s) }
  wrl s 5 s.yreg

/-- Line 835: `sub %sp, SPARC_STACK_BARE_MINIMUM_..., %sp` — the nested
auxiliary call frame. -/
def nestedMakeCallFrame (s : TrapState) : TrapState :=
  wro s 6 (wsub (sp s) SPARC_STACK_BARE_MINIMUM_STACK_FRAME_RESERVATION_SIZE)

/-- `nested_disable_traps` (lines 913-934): rewrite the PSR with the archived
trap-entry value `%l0` and release the auxiliary call frame. -/
def nestedDisableTraps (s : TrapState) : TrapState :=
  let s := wrpsr s (rdl s 0)
  wro s 6 (sp s + SPARC_STACK_BARE_MINIMUM_STACK_FRAME_RESERVATION_SIZE)

/-- Nested context restore (lines 936-963): reload every context word from
the stack record at `%sp` — including the PSR, which is loaded into `%l0`
verbatim, with no non-restorable-bits filtering. -/
def nestedRestoreContext (s : TrapState) : TrapState :=
  let b := sp s
  let s := wrl s 0 (ld s.mem b)
  let s := { s with
    g1 := ld s.mem (b + 4), g2 := ld s.mem (b + 8), g3 := ld s.mem (b + 12),
    g4 := ld s.mem (b + 16), g5 := ld s.mem (b + 20), g6 := ld s.mem (b + 24),
    g7 := ld s.mem (b + 28) }
  let s := wri s 0 (ld s.mem (b + 32))
  let s := wri s 1 (ld s.mem (b + 36))
  let s := wri s 2 (ld s.mem (b + 40))
  let s := wri s 3 (ld s.mem (b + 44))
  let s := wri s 4 (ld s.mem (b + 48))
  let s := wri s 5 (ld s.mem (b + 52))
  let s := wri s 6 (ld s.mem (b + 56))
  let s := wri s 7 (ld s.mem (b + 60))
  let s := wrl s 5 (ld s.mem (b + 64))
  let s := { s with yreg := rdl s 5 }
  let s := wrl s 1 (ld s.mem (b + 68))
  wrl s 2 (ld s.mem (b + 72))

/-- Nested exit window check and refill (lines 966-1028): compute the mask of
the window immediately above the trap window (CWP of `%l0` plus one, modulo
NWINDOWS); if it is the invalid window (`nested_restore_invalid_window`),
rotate the WIM one bit left, `restore` into it, refill its sixteen words from
its stack pointer, and `save` back; otherwise fall through
(`nested_skip_restoring_invalid_window`).  This first block (lines 996-1003)
is the rotation: `l4` is the WIM copy read at line 984 and `l5` is
NWINDOWS-1. -/
def nestedRefillRotate (s : TrapState) (l4 l5 : Nat) : TrapState :=
  let l6 := sll l4 1
  let l4 := srl l4 l5 ||| l6
  let s := wrl s 6 l6
  let s := wrl s 4 l4
  let s := wrwim s l4
  restoreWin s

/-- The sixteen loads of the nested exit refill (lines 1005-1022): refill
the newly entered window from its own stack pointer. -/
def nestedRefillLoads (s : TrapState) : TrapState :=
  let b := sp s
  let s := wrl s 0 (ld s.mem b)
  let s := wrl s 1 (ld s.mem (b + 4))
  let s := wrl s 2 (ld s.mem (b + 8))
  let s := wrl s 3 (ld s.mem (b + 12))
  let s := wrl s 4 (ld s.mem (b + 16))
  let s := wrl s 5 (ld s.mem (b + 20))
  let s := wrl s 6 (ld s.mem (b + 24))
  let s := wrl s 7 (ld s.mem (b + 28))
  let s := wri s 0 (ld s.mem (b + 32))
  let s := wri s 1 (ld s.mem (b + 36))
  let s := wri s 2 (ld s.mem (b + 40))
  let s := wri s 3 (ld s.mem (b + 44))
  let s := wri s 4 (ld s.mem (b + 48))
  let s := wri s 5 (ld s.mem (b + 52))
  let s := wri s 6 (ld s.mem (b + 56))
  wri s 7 (ld s.mem (b + 60))

def nestedMaybeRefill (s : TrapState) : TrapState :=
  let l5 := wsub s.nwin 1
  let s := wrl s 5 l5
  let l7 := w32 ((rdl s 0 &&& SPARC_PSR_CWP_MASK) + 1) &&& l5
  let s := wrl s 7 l7
  let l6 := sll 1 l7
  let s := wrl s 6 l6
  let l4 := s.wim
  let s := wrl s 4 l4
  if l4 ≠ l6 then s
  else saveWin (nestedRefillLoads (nestedRefillRotate s l4 l5))

/-! ## The two paths and the full handler -/

/-- The outermost trap path (`outermost_trap_handler` through
`common_return_from_trap`), with the two external collaborators as
parameters. -/
def outermostPath (ic tc : TrapState → TrapState) (s : TrapState) : TrapState :=
  commonReturnFromTrap
    (outermostUnderflowRefill
      (outermostRestoreContext
        (outermostLoadContextPointer
          (outermostClearFlag
            (outermostDisableTraps
              (handlerDispatch ic tc
                (outermostMakeCallFrame
                  (outermostSaveContext
                    (outermostDump s)))))))))

/-- The nested trap path (`nested_trap_handler` through
`common_return_from_trap`). -/
def nestedPath (ic tc : TrapState → TrapState) (s : TrapState) : TrapState :=
  commonReturnFromTrap
    (nestedMaybeRefill
      (nestedRestoreContext
        (nestedDisableTraps
          (handlerDispatch ic tc
            (nestedMakeCallFrame
              (nestedSaveContext
                (nestedEnsureFreeFrame s)))))))

/-- The whole `sparcTaskContextAwareTrapHandler` routine: common entry, then
the nested path if `system_in_interrupt_context` was already set, otherwise
the outermost path. -/
def sparcTaskContextAwareTrapHandler (ic tc : TrapState → TrapState)
    (s : TrapState) : TrapState :=
  let s1 := commonEntry s
  if rdl s1 5 ≠ 0 then nestedPath ic tc s1 else outermostPath ic tc s1

/-! ## Basic word and memory lemmas -/

theorem w32_lt (a : Nat) : w32 a < 4294967296 := by
  unfold w32; omega

theorem w32_w32 (a : Nat) : w32 (w32 a) = w32 a := by
  unfold w32; omega

theorem w32_eq_of_lt {a : Nat} (h : a < 4294967296) : w32 a = a :=
  Nat.mod_eq_of_lt h

theorem w32_add_left (a b : Nat) : w32 (w32 a + b) = w32 (a + b) := by
  unfold w32; exact Nat.mod_add_mod a 4294967296 b

theorem or_and_distrib (a b c : Nat) : (a ||| b) &&& c = (a &&& c) ||| (b &&& c) := by
  refine Nat.eq_of_testBit_eq fun i => ?_
  simp [Nat.testBit_and, Nat.testBit_or, Bool.and_or_distrib_right]

theorem and_or_distrib (a b c : Nat) : a &&& (b ||| c) = (a &&& b) ||| (a &&& c) := by
  refine Nat.eq_of_testBit_eq fun i => ?_
  simp [Nat.testBit_and, Nat.testBit_or, Bool.and_or_distrib_left]

theorem st_hit (m : Mem) (a v : Nat) : st m a v (w32 a) = w32 v := by
  simp [st]

theorem st_miss (m : Mem) (a v x : Nat) (h : x ≠ w32 a) : st m a v x = m x := by
  simp [st, h]

theorem stSeq_miss (vs : List Nat) (m : Mem) (b x : Nat)
    (h : ∀ j, j < vs.length → x ≠ w32 (b + 4 * j)) : stSeq m b vs x = m x := by
  induction vs generalizing m b with
  | nil => rfl
  | cons v vs ih =>
    show stSeq (st m b v) (b + 4) vs x = m x
    rw [ih (st m b v) (b + 4) fun j hj => by
      have := h (j + 1) (by simpa using Nat.succ_lt_succ hj)
      simpa [Nat.mul_add, Nat.add_assoc, Nat.add_comm, Nat.add_left_comm] using this]
    exact st_miss m b v x (by simpa using h 0 (Nat.succ_pos _))

theorem stSeq_hit (vs : List Nat) (m : Mem) (b j : Nat)
    (hb : b + 4 * vs.length ≤ 4294967296) (hj : j < vs.length) :
    stSeq m b vs (b + 4 * j) = w32 (vs.getD j 0) := by
  induction vs generalizing m b j with
  | nil => exact absurd hj (by simp)
  | cons v vs ih =>
    show stSeq (st m b v) (b + 4) vs (b + 4 * j) = w32 ((v :: vs).getD j 0)
    match j with
    | 0 =>
      rw [stSeq_miss vs (st m b v) (b + 4) (b + 4 * 0) fun j' hj' => by
        have h1 : (b + 4) + 4 * j' < 4294967296 := by
          simp only [List.length_cons] at hb; omega
        rw [w32_eq_of_lt h1]; omega]
      have hb0 : b < 4294967296 := by simp only [List.length_cons] at hb; omega
      have : b + 4 * 0 = w32 b := by rw [w32_eq_of_lt hb0]; omega
      rw [this, st_hit]
      rfl
    | j' + 1 =>
      have harr : b + 4 * (j' + 1) = (b + 4) + 4 * j' := by omega
      rw [harr, ih (st m b v) (b + 4) j'
        (by simp only [List.length_cons] at hb; omega)
        (by simpa using Nat.lt_of_succ_lt_succ hj)]
      rfl

/-! ## Claim theorems for the interrupt mask controller -/

/-- C8: `sparcEnableAllInterrupts` ors both class masks into the current
interrupt mask, `sparcDisableAllInterrupts` ands it with the complement of
their union, `sparcEnableISR2Interrupts` ors in only the ISR2 class mask,
`sparcDisableISR2Interrupts` ands with the complement of only the ISR2 class
mask, and none of the four operations changes either class handler mask. -/
theorem interrupt_mask_ops_correct (s : IrqMaskState) :
    (sparcEnableAllInterrupts s).currentInterruptMask
        = s.currentInterruptMask ||| (s.isr1HandlersMask ||| s.isr2HandlersMask)
  ∧ (sparcDisableAllInterrupts s).currentInterruptMask
        = s.currentInterruptMask &&& notw (s.isr1HandlersMask ||| s.isr2HandlersMask)
  ∧ (sparcEnableISR2Interrupts s).currentInterruptMask
        = s.currentInterruptMask ||| s.isr2HandlersMask
  ∧ (sparcDisableISR2Interrupts s).currentInterruptMask
        = s.currentInterruptMask &&& notw s.isr2HandlersMask
  ∧ (sparcEnableAllInterrupts s).isr1HandlersMask = s.isr1HandlersMask
  ∧ (sparcEnableAllInterrupts s).isr2HandlersMask = s.isr2HandlersMask
  ∧ (sparcDisableAllInterrupts s).isr1HandlersMask = s.isr1HandlersMask
  ∧ (sparcDisableAllInterrupts s).isr2HandlersMask = s.isr2HandlersMask
  ∧ (sparcEnableISR2Interrupts s).isr1HandlersMask = s.isr1HandlersMask
  ∧ (sparcEnableISR2Interrupts s).isr2HandlersMask = s.isr2HandlersMask
  ∧ (sparcDisableISR2Interrupts s).isr1HandlersMask = s.isr1HandlersMask
  ∧ (sparcDisableISR2Interrupts s).isr2HandlersMask = s.isr2HandlersMask :=
  ⟨rfl, rfl, rfl, rfl, rfl, rfl, rfl, rfl, rfl, rfl, rfl, rfl⟩

/-- C9: the table write of the ISR registration functions stays within the
fifteen-element `sparcIRQHandlersTable` exactly when `1 ≤ irq ≤ 15`; the
embedded indexing's out-of-bounds branch is unreachable exactly under that
precondition, and `irq = 0` (which wraps to index 2^32 - 1 in unsigned
arithmetic) or `irq > 15` violates it. -/
theorem irq_registration_index_bounds (s : IrqRegState) (handler irq : Nat)
    (hlen : s.handlersTable.length = 15) (hirq : irq < 4294967296) :
    ((sparcRegisterISR1Handler s handler irq).isSome ↔ 1 ≤ irq ∧ irq ≤ 15)
  ∧ ((sparcRegisterISR2Handler s handler irq).isSome ↔ 1 ≤ irq ∧ irq ≤ 15)
  ∧ (irqTableIndex irq < 15 ↔ 1 ≤ irq ∧ irq ≤ 15) := by
  have hidx : irqTableIndex irq < 15 ↔ 1 ≤ irq ∧ irq ≤ 15 := by
    unfold irqTableIndex wsub
    omega
  refine ⟨?_, ?_, hidx⟩ <;>
  · simp only [sparcRegisterISR1Handler, sparcRegisterISR2Handler, hlen]
    split
    · simpa using hidx.mp (by assumption)
    · simp only [Option.isSome_none, Bool.false_eq_true, false_iff]
      intro hcon
      exact absurd (hidx.mpr hcon) (by assumption)

/-- Witness for C9 at the concrete initial table and `irq = 3`. -/
theorem irq_registration_index_bounds_witness :
    (sparcIRQHandlersTable.length = 15 ∧ (3 : Nat) < 4294967296)
  ∧ (((sparcRegisterISR1Handler ⟨⟨0, 0, 0, 0⟩, sparcIRQHandlersTable, 0⟩ 5 3).isSome
        ↔ 1 ≤ (3 : Nat) ∧ (3 : Nat) ≤ 15)
    ∧ ((sparcRegisterISR2Handler ⟨⟨0, 0, 0, 0⟩, sparcIRQHandlersTable, 0⟩ 5 3).isSome
        ↔ 1 ≤ (3 : Nat) ∧ (3 : Nat) ≤ 15)
    ∧ (irqTableIndex 3 < 15 ↔ 1 ≤ (3 : Nat) ∧ (3 : Nat) ≤ 15)) :=
  ⟨⟨by decide, by decide⟩,
    irq_registration_index_bounds ⟨⟨0, 0, 0, 0⟩, sparcIRQHandlersTable, 0⟩ 5 3
      (by decide) (by decide)⟩

/-! ## Register access lemmas -/

theorem w32_rdl (s : TrapState) (k : Nat) : w32 (rdl s k) = rdl s k := by
  unfold rdl; rw [w32_w32]

theorem rdl_wrl (s : TrapState) (k v j : Nat) :
    rdl (wrl s k v) j = if j = k then w32 v else rdl s j := by
  by_cases h : j = k
  · subst h; simp [rdl, wrl, updw, w32_w32]
  · simp [rdl, wrl, updw, h]

theorem rdl_wri (s : TrapState) (k v j : Nat) : rdl (wri s k v) j = rdl s j := rfl

theorem rdl_wro (s : TrapState) (k v j : Nat) : rdl (wro s k v) j = rdl s j := rfl

theorem rdl_storeFlag (s : TrapState) (v j : Nat) :
    rdl (storeIntCtxFlag s v) j = rdl s j := rfl

/-- Base machine state used by the concrete witnesses. -/
def baseState : TrapState := {
  psr := 0, wim := 1, yreg := 0,
  g1 := 0, g2 := 0, g3 := 0, g4 := 0, g5 := 0, g6 := 0, g7 := 0,
  wlocal := fun _ _ => 0, win := fun _ _ => 0, mem := fun _ => 0,
  inIntCtx := 0, activeCtx := 0, nwin := 8, nullCtx := 80 }

/-! ## Claim theorem for the unified resume pair -/

/-- C6: the entry normalization yields a single resume pair: for an
asynchronous interrupt (bit 5 of the vector index clear) the delivered
`(PC, nPC)` is left unchanged whatever its value — including an interrupt
taken in a branch delay slot — and for a precise software trap (bit 5 set)
the pair becomes `(nPC, nPC + 4)`; hence an interrupt trap (outside a delay
slot, so `nPC = PC + 4`) and a software trap targeting the same logical
resume point produce identical final jump-target pairs. -/
theorem unified_resume_pair (sI sS : TrapState)
    (hI : rdl sI 3 &&& 32 = 0) (hS : rdl sS 3 &&& 32 ≠ 0) :
    resumePair (commonEntry sI) = (rdl sI 1, rdl sI 2)
  ∧ resumePair (commonEntry sS) = (rdl sS 2, w32 (rdl sS 2 + 4))
  ∧ (rdl sS 2 = rdl sI 1 → rdl sI 2 = w32 (rdl sI 1 + 4) →
      resumePair (commonEntry sI) = resumePair (commonEntry sS)) := by
  have hA : resumePair (commonEntry sI) = (rdl sI 1, rdl sI 2) := by
    simp [commonEntry, resumePair, hI, rdl_wrl, rdl_storeFlag]
  have hB : resumePair (commonEntry sS) = (rdl sS 2, w32 (rdl sS 2 + 4)) := by
    simp [commonEntry, resumePair, hS, rdl_wrl, rdl_storeFlag, w32_rdl, w32_add_left]
  refine ⟨hA, hB, fun h1 h2 => ?_⟩
  rw [hA, hB, h1, ← h2]

/-- Witness for C6: an interrupt trap delivering `(PC, nPC) = (400, 404)` and
a software trap delivering `nPC = 400` normalize to the same pair. -/
theorem unified_resume_pair_witness :
    (rdl { baseState with
        wlocal := fun _ k => if k = 1 then 400 else if k = 2 then 404 else 0 } 3 &&& 32 = 0
  ∧ rdl { baseState with
        wlocal := fun _ k => if k = 3 then 32 else if k = 2 then 400 else 0 } 3 &&& 32 ≠ 0)
  ∧ (resumePair (commonEntry { baseState with
        wlocal := fun _ k => if k = 1 then 400 else if k = 2 then 404 else 0 })
      = resumePair (commonEntry { baseState with
        wlocal := fun _ k => if k = 3 then 32 else if k = 2 then 400 else 0 })) :=
  ⟨⟨by decide, by decide⟩,
    (unified_resume_pair
      { baseState with wlocal := fun _ k => if k = 1 then 400 else if k = 2 then 404 else 0 }
      { baseState with wlocal := fun _ k => if k = 3 then 32 else if k = 2 then 400 else 0 }
      (by decide) (by decide)).2.2 (by decide) (by decide)⟩

/-! ## Claim theorems for the handler caller dispatch priority -/

/-- The processor interrupt level (PIL) field of a PSR value. -/
def pilOf (p : Nat) : Nat := (p &&& SPARC_PSR_PIL_MASK) >>> 8

theorem sll8_and_pil {v : Nat} (hv : v ≤ 15) :
    sll v 8 &&& SPARC_PSR_PIL_MASK = sll v 8 ∧ sll v 8 >>> 8 = v := by
  interval_cases v <;> exact ⟨by decide, by decide⟩

theorem and16_eq_zero_15 {x : Nat} (h : x &&& 16 = 0) : x &&& 31 = x &&& 15 := by
  have h31 : (31 : Nat) = 16 ||| 15 := by decide
  rw [h31, and_or_distrib, h, Nat.zero_or]

/-- C5 (amended): during an Interrupt-kind handler-caller call whose vector
index has bit 4 clear (so the 5-bit argument is a representable interrupt
level, at most 15), the PIL equals the argument — the code installs only the
low four bits of the index into the four-bit PIL field; during a
ContextReplacement-kind call the PIL is unchanged from its trap-entry value.
Also ties the dispatch blocks to `psrDuringHandlerCall`. -/
theorem handler_call_priority (s : TrapState) :
    (rdl s 3 &&& 32 = 0 →
        (interruptCallEntry s).psr = psrDuringHandlerCall (rdl s 0) (rdl s 3))
  ∧ (rdl s 3 &&& 32 ≠ 0 →
        (replacementCallEntry s).psr = psrDuringHandlerCall (rdl s 0) (rdl s 3))
  ∧ (rdl s 3 &&& 16 = 0 →
        pilOf (interruptCallEntry s).psr = rdl s 3 &&& 31 ∧ rdl s 3 &&& 31 ≤ 15)
  ∧ pilOf (replacementCallEntry s).psr = pilOf (rdl s 0) := by
  have hpsrI : (interruptCallEntry s).psr
      = ((rdl s 0 &&& notw SPARC_PSR_PIL_MASK) ||| sll (rdl s 3 &&& 15) 8)
          ||| SPARC_PSR_ET_MASK := rfl
  have hpsrR : (replacementCallEntry s).psr = rdl s 0 ||| SPARC_PSR_ET_MASK := rfl
  have hand0 : ∀ a : Nat, (a &&& notw SPARC_PSR_PIL_MASK) &&& SPARC_PSR_PIL_MASK = 0 := by
    intro a
    rw [Nat.and_assoc, (by decide : notw SPARC_PSR_PIL_MASK &&& SPARC_PSR_PIL_MASK = 0),
      Nat.and_zero]
  have hshift := sll8_and_pil (v := rdl s 3 &&& 15) Nat.and_le_right
  have hpil : pilOf (interruptCallEntry s).psr = rdl s 3 &&& 15 := by
    rw [pilOf, hpsrI, or_and_distrib, or_and_distrib, hand0,
      (by decide : SPARC_PSR_ET_MASK &&& SPARC_PSR_PIL_MASK = 0), Nat.or_zero,
      Nat.zero_or, hshift.1, hshift.2]
  refine ⟨fun h => ?_, fun h => ?_, fun h => ?_, ?_⟩
  · rw [hpsrI, psrDuringHandlerCall, if_neg (by simp [h])]
  · rw [hpsrR, psrDuringHandlerCall, if_pos h]
  · exact ⟨by rw [hpil, and16_eq_zero_15 h], by rw [and16_eq_zero_15 h]; exact Nat.and_le_right⟩
  · rw [pilOf, hpsrR, or_and_distrib,
      (by decide : SPARC_PSR_ET_MASK &&& SPARC_PSR_PIL_MASK = 0), Nat.or_zero, pilOf]

/-- Witness for C5 (amended): an interrupt trap with argument 5 runs its
caller at PIL 5; a context replacement trap (index 37) leaves the PIL at its
entry value. -/
theorem handler_call_priority_witness :
    pilOf (interruptCallEntry
        { baseState with wlocal := fun _ k => if k = 3 then 5 else 0 }).psr
      = rdl { baseState with wlocal := fun _ k => if k = 3 then 5 else 0 } 3 &&& 31
  ∧ pilOf (replacementCallEntry
        { baseState with wlocal := fun _ k => if k = 3 then 37 else 0 }).psr
      = pilOf (rdl { baseState with wlocal := fun _ k => if k = 3 then 37 else 0 } 0) :=
  ⟨((handler_call_priority
      { baseState with wlocal := fun _ k => if k = 3 then 5 else 0 }).2.2.1 (by decide)).1,
   (handler_call_priority
      { baseState with wlocal := fun _ k => if k = 3 then 37 else 0 }).2.2.2⟩

/-- Counterexample to C5 as stated: the trap-vector index 16 selects the
Interrupt kind (bit 5 clear) with 5-bit argument 16, but during the
`sparcInterruptHandlerCaller` call the PIL is 0, which is not greater than or
equal to the argument — the code writes only the low four index bits into the
four-bit PIL field. -/
theorem handler_call_priority_cex :
    rdl { baseState with wlocal := fun _ k => if k = 3 then 16 else 0 } 3 &&& 32 = 0
  ∧ rdl { baseState with wlocal := fun _ k => if k = 3 then 16 else 0 } 3 &&& 31 = 16
  ∧ ¬ (rdl { baseState with wlocal := fun _ k => if k = 3 then 16 else 0 } 3 &&& 31
        ≤ pilOf (interruptCallEntry
            { baseState with wlocal := fun _ k => if k = 3 then 16 else 0 }).psr) := by
  refine ⟨by decide, by decide, by decide⟩

/-! ## Projection lemmas for the state helpers -/

theorem wrl_psr (s : TrapState) (k v : Nat) : (wrl s k v).psr = s.psr := rfl

theorem wri_psr (s : TrapState) (k v : Nat) : (wri s k v).psr = s.psr := rfl

theorem wro_psr (s : TrapState) (k v : Nat) : (wro s k v).psr = s.psr := rfl

theorem wrpsr_psr (s : TrapState) (v : Nat) : (wrpsr s v).psr = v := rfl

theorem wrwim_psr (s : TrapState) (v : Nat) : (wrwim s v).psr = s.psr := rfl

theorem storeFlag_psr (s : TrapState) (v : Nat) : (storeIntCtxFlag s v).psr = s.psr := rfl

theorem wrl_wlocal (s : TrapState) (k v : Nat) :
    (wrl s k v).wlocal = updw s.wlocal (cwp s.psr) k v := rfl

theorem wri_wlocal (s : TrapState) (k v : Nat) : (wri s k v).wlocal = s.wlocal := rfl

theorem wro_wlocal (s : TrapState) (k v : Nat) : (wro s k v).wlocal = s.wlocal := rfl

theorem wrpsr_wlocal (s : TrapState) (v : Nat) : (wrpsr s v).wlocal = s.wlocal := rfl

theorem wrwim_wlocal (s : TrapState) (v : Nat) : (wrwim s v).wlocal = s.wlocal := rfl

theorem wrl_win (s : TrapState) (k v : Nat) : (wrl s k v).win = s.win := rfl

theorem wri_win (s : TrapState) (k v : Nat) :
    (wri s k v).win = updw s.win (cwp s.psr) k v := rfl

theorem wro_win (s : TrapState) (k v : Nat) :
    (wro s k v).win = updw s.win (prevw s (cwp s.psr)) k v := rfl

theorem wrpsr_win (s : TrapState) (v : Nat) : (wrpsr s v).win = s.win := rfl

theorem wrl_mem (s : TrapState) (k v : Nat) : (wrl s k v).mem = s.mem := rfl

theorem wri_mem (s : TrapState) (k v : Nat) : (wri s k v).mem = s.mem := rfl

theorem wro_mem (s : TrapState) (k v : Nat) : (wro s k v).mem = s.mem := rfl

theorem wrpsr_mem (s : TrapState) (v : Nat) : (wrpsr s v).mem = s.mem := rfl

theorem wrwim_mem (s : TrapState) (v : Nat) : (wrwim s v).mem = s.mem := rfl

theorem storeFlag_mem (s : TrapState) (v : Nat) : (storeIntCtxFlag s v).mem = s.mem := rfl

theorem wrl_flag (s : TrapState) (k v : Nat) : (wrl s k v).inIntCtx = s.inIntCtx := rfl

theorem wri_flag (s : TrapState) (k v : Nat) : (wri s k v).inIntCtx = s.inIntCtx := rfl

theorem wro_flag (s : TrapState) (k v : Nat) : (wro s k v).inIntCtx = s.inIntCtx := rfl

theorem wrpsr_flag (s : TrapState) (v : Nat) : (wrpsr s v).inIntCtx = s.inIntCtx := rfl

theorem wrwim_flag (s : TrapState) (v : Nat) : (wrwim s v).inIntCtx = s.inIntCtx := rfl

theorem storeFlag_flag (s : TrapState) (v : Nat) :
    (storeIntCtxFlag s v).inIntCtx = v := rfl

theorem restoreWin_flag (s : TrapState) : (restoreWin s).inIntCtx = s.inIntCtx := rfl

theorem saveWin_flag (s : TrapState) : (saveWin s).inIntCtx = s.inIntCtx := rfl

theorem wrl_wim (s : TrapState) (k v : Nat) : (wrl s k v).wim = s.wim := rfl

theorem wri_wim (s : TrapState) (k v : Nat) : (wri s k v).wim = s.wim := rfl

theorem wro_wim (s : TrapState) (k v : Nat) : (wro s k v).wim = s.wim := rfl

theorem wrpsr_wim (s : TrapState) (v : Nat) : (wrpsr s v).wim = s.wim := rfl

theorem restoreWin_wim (s : TrapState) : (restoreWin s).wim = s.wim := rfl

theorem saveWin_wim (s : TrapState) : (saveWin s).wim = s.wim := rfl

theorem restoreWin_mem (s : TrapState) : (restoreWin s).mem = s.mem := rfl

theorem saveWin_mem (s : TrapState) : (saveWin s).mem = s.mem := rfl

theorem restoreWin_wlocal (s : TrapState) : (restoreWin s).wlocal = s.wlocal := rfl

theorem saveWin_wlocal (s : TrapState) : (saveWin s).wlocal = s.wlocal := rfl

theorem restoreWin_win (s : TrapState) : (restoreWin s).win = s.win := rfl

theorem saveWin_win (s : TrapState) : (saveWin s).win = s.win := rfl

theorem wrl_activeCtx (s : TrapState) (k v : Nat) : (wrl s k v).activeCtx = s.activeCtx := rfl

theorem wro_activeCtx (s : TrapState) (k v : Nat) : (wro s k v).activeCtx = s.activeCtx := rfl

theorem wrl_nwin (s : TrapState) (k v : Nat) : (wrl s k v).nwin = s.nwin := rfl

theorem wro_nwin (s : TrapState) (k v : Nat) : (wro s k v).nwin = s.nwin := rfl

theorem wrpsr_nwin (s : TrapState) (v : Nat) : (wrpsr s v).nwin = s.nwin := rfl

/-- Storing one word does not change the `w32` bound on an unrelated register
read: `updw` evaluated away from the written slot. -/
theorem updw_ne (f : Nat → Nat → Nat) (w k v w' k' : Nat)
    (h : w' ≠ w ∨ k' ≠ k) : updw f w k v w' k' = f w' k' := by
  unfold updw
  rcases h with h | h
  · rw [if_neg h]
  · by_cases hw : w' = w
    · rw [if_pos hw, if_neg h]
    · rw [if_neg hw]

theorem updw_eq (f : Nat → Nat → Nat) (w k v : Nat) : updw f w k v w k = w32 v := by
  unfold updw
  rw [if_pos rfl, if_pos rfl]

/-! ## Claim theorem for the PSR rewrite after the collaborator call -/

theorem cwp_or_et (p : Nat) : cwp (p ||| SPARC_PSR_ET_MASK) = cwp p := by
  rw [cwp, cwp, or_and_distrib,
    (by decide : SPARC_PSR_ET_MASK &&& SPARC_PSR_CWP_MASK = 0), Nat.or_zero]

theorem sll8_and_cwp {v : Nat} (hv : v ≤ 15) :
    sll v 8 &&& SPARC_PSR_CWP_MASK = 0 := by
  interval_cases v <;> decide

theorem cwp_elevated (l0 l3 : Nat) :
    cwp ((l0 &&& notw SPARC_PSR_PIL_MASK) ||| sll (l3 &&& 15) 8) = cwp l0 := by
  rw [cwp, cwp, or_and_distrib, sll8_and_cwp (v := l3 &&& 15) Nat.and_le_right,
    Nat.or_zero, Nat.and_assoc,
    (by decide : notw SPARC_PSR_PIL_MASK &&& SPARC_PSR_CWP_MASK = SPARC_PSR_CWP_MASK)]

theorem rdl_wrpsr_same (s : TrapState) (v j : Nat) (h : cwp v = cwp s.psr) :
    rdl (wrpsr s v) j = rdl s j := by
  unfold rdl wrpsr
  simp only [h]

theorem rdl0_interruptCallEntry (s : TrapState) (hcw : cwp (rdl s 0) = cwp s.psr) :
    rdl (interruptCallEntry s) 0 = rdl s 0
  ∧ cwp (interruptCallEntry s).psr = cwp s.psr := by
  have hc4 : cwp ((rdl s 0 &&& notw SPARC_PSR_PIL_MASK) ||| sll (rdl s 3 &&& 15) 8)
      = cwp s.psr := by rw [cwp_elevated, hcw]
  have hcb : cwp (((rdl s 0 &&& notw SPARC_PSR_PIL_MASK) ||| sll (rdl s 3 &&& 15) 8)
      ||| SPARC_PSR_ET_MASK) = cwp s.psr := by rw [cwp_or_et]; exact hc4
  constructor
  · show w32 ((interruptCallEntry s).wlocal (cwp (interruptCallEntry s).psr) 0) = rdl s 0
    simp only [interruptCallEntry, wro_wlocal, wrpsr_wlocal, wrl_wlocal, wrpsr_psr,
      wro_psr, wrl_psr, hcb, hc4]
    rw [updw_ne _ _ _ _ _ _ (Or.inr (by decide)),
      updw_ne _ _ _ _ _ _ (Or.inr (by decide)),
      updw_ne _ _ _ _ _ _ (Or.inr (by decide))]
    rfl
  · show cwp (wro (wrpsr _ _) 0 _).psr = cwp s.psr
    rw [wro_psr, wrpsr_psr]
    exact hcb

theorem rdl0_replacementCallEntry (s : TrapState) (hcw : cwp (rdl s 0) = cwp s.psr) :
    rdl (replacementCallEntry s) 0 = rdl s 0
  ∧ cwp (replacementCallEntry s).psr = cwp s.psr := by
  have hc : cwp (rdl s 0 ||| SPARC_PSR_ET_MASK) = cwp s.psr := by
    rw [cwp_or_et]; exact hcw
  constructor
  · show w32 ((replacementCallEntry s).wlocal (cwp (replacementCallEntry s).psr) 0) = rdl s 0
    simp only [replacementCallEntry, wro_wlocal, wrpsr_wlocal, wrl_wlocal, wrpsr_psr,
      wro_psr, wrl_psr, hc]
    rw [updw_ne _ _ _ _ _ _ (Or.inr (by decide))]
    rfl
  · show cwp (wro (wrpsr _ _) 0 _).psr = cwp s.psr
    rw [wro_psr, wrpsr_psr]
    exact hc

theorem rdl0_handlerDispatch (ic tc : TrapState → TrapState) (s : TrapState)
    (hic : ∀ u, cwp (ic u).psr = cwp u.psr)
    (hicl : ∀ u, (ic u).wlocal (cwp u.psr) 0 = u.wlocal (cwp u.psr) 0)
    (htc : ∀ u, cwp (tc u).psr = cwp u.psr)
    (htcl : ∀ u, (tc u).wlocal (cwp u.psr) 0 = u.wlocal (cwp u.psr) 0)
    (hcw : cwp (rdl s 0) = cwp s.psr) :
    rdl (handlerDispatch ic tc s) 0 = rdl s 0 := by
  unfold handlerDispatch
  split
  · rw [rdl, htc, htcl, ← rdl]
    exact (rdl0_replacementCallEntry s hcw).1
  · rw [rdl, hic, hicl, ← rdl]
    exact (rdl0_interruptCallEntry s hcw).1

/-- C7: on both the outermost and the nested path, immediately after the
collaborator call returns (regardless of the handler kind), the routine
rewrites the PSR to the archived trap-entry value held in `%l0`, so that the
ET bit and the PIL field then equal their trap-entry values; with the
trap-entry invariant that `%l0` has ET clear, traps are then disabled.  The
collaborator hypotheses state that the external caller functions obey the
ABI: they return with the CWP restored and the caller's `%l0` preserved. -/
theorem psr_rewritten_after_collaborator (ic tc : TrapState → TrapState) (s : TrapState)
    (hic : ∀ u, cwp (ic u).psr = cwp u.psr)
    (hicl : ∀ u, (ic u).wlocal (cwp u.psr) 0 = u.wlocal (cwp u.psr) 0)
    (htc : ∀ u, cwp (tc u).psr = cwp u.psr)
    (htcl : ∀ u, (tc u).wlocal (cwp u.psr) 0 = u.wlocal (cwp u.psr) 0)
    (hcw : cwp (rdl s 0) = cwp s.psr) :
    (outermostDisableTraps (handlerDispatch ic tc s)).psr = rdl s 0
  ∧ (nestedDisableTraps (handlerDispatch ic tc s)).psr = rdl s 0
  ∧ (rdl s 0 &&& SPARC_PSR_ET_MASK = 0 →
      (outermostDisableTraps (handlerDispatch ic tc s)).psr &&& SPARC_PSR_ET_MASK = 0)
  ∧ pilOf (outermostDisableTraps (handlerDispatch ic tc s)).psr = pilOf (rdl s 0) := by
  have h0 := rdl0_handlerDispatch ic tc s hic hicl htc htcl hcw
  have hOut : (outermostDisableTraps (handlerDispatch ic tc s)).psr = rdl s 0 := by
    show (wro (wrpsr _ _) 6 _).psr = rdl s 0
    exact h0
  have hNest : (nestedDisableTraps (handlerDispatch ic tc s)).psr = rdl s 0 := by
    show (wro (wrpsr _ _) 6 _).psr = rdl s 0
    exact h0
  exact ⟨hOut, hNest, fun h => by rw [hOut, h], by rw [hOut]⟩

/-- Witness for C7 with identity collaborators at a concrete state. -/
theorem psr_rewritten_after_collaborator_witness :
    ((∀ u : TrapState, cwp (id u).psr = cwp u.psr)
  ∧ (∀ u : TrapState, (id u).wlocal (cwp u.psr) 0 = u.wlocal (cwp u.psr) 0)
  ∧ cwp (rdl baseState 0) = cwp baseState.psr)
  ∧ (outermostDisableTraps (handlerDispatch id id baseState)).psr = rdl baseState 0
  ∧ (nestedDisableTraps (handlerDispatch id id baseState)).psr = rdl baseState 0 :=
  ⟨⟨fun _ => rfl, fun _ => rfl, by decide⟩,
    (psr_rewritten_after_collaborator id id baseState
      (fun _ => rfl) (fun _ => rfl) (fun _ => rfl) (fun _ => rfl) (by decide)).1,
    (psr_rewritten_after_collaborator id id baseState
      (fun _ => rfl) (fun _ => rfl) (fun _ => rfl) (fun _ => rfl) (by decide)).2.1⟩

/-! ## Claim theorems for the save/restore round trip -/

theorem ld_stSeq (vs : List Nat) (m : Mem) (b j : Nat)
    (hb : b + 4 * vs.length ≤ 4294967296) (hj : j < vs.length) :
    ld (stSeq m b vs) (b + 4 * j) = w32 (vs.getD j 0) := by
  have ha : w32 (b + 4 * j) = b + 4 * j := w32_eq_of_lt (by omega)
  rw [ld, ha, stSeq_hit vs m b j hb hj, w32_w32]

theorem w32_rdi (s : TrapState) (k : Nat) : w32 (rdi s k) = rdi s k := by
  unfold rdi; rw [w32_w32]

theorem restoredPsr_and_mask (x y : Nat) :
    restoredPsr x y &&& SPARC_NON_RESTORABLE_BITS_IN_PSR
      = x &&& SPARC_NON_RESTORABLE_BITS_IN_PSR := by
  rw [restoredPsr, or_and_distrib, Nat.and_assoc, Nat.and_assoc,
    (by decide : notw SPARC_NON_RESTORABLE_BITS_IN_PSR &&& SPARC_NON_RESTORABLE_BITS_IN_PSR = 0),
    Nat.and_zero, Nat.or_zero,
    (by decide : SPARC_NON_RESTORABLE_BITS_IN_PSR &&& SPARC_NON_RESTORABLE_BITS_IN_PSR
      = SPARC_NON_RESTORABLE_BITS_IN_PSR)]

theorem restoredPsr_and_not (x y : Nat) :
    restoredPsr x y &&& notw SPARC_NON_RESTORABLE_BITS_IN_PSR
      = y &&& notw SPARC_NON_RESTORABLE_BITS_IN_PSR := by
  rw [restoredPsr, or_and_distrib, Nat.and_assoc, Nat.and_assoc,
    (by decide : SPARC_NON_RESTORABLE_BITS_IN_PSR &&& notw SPARC_NON_RESTORABLE_BITS_IN_PSR = 0),
    Nat.and_zero, Nat.zero_or,
    (by decide : notw SPARC_NON_RESTORABLE_BITS_IN_PSR &&& notw SPARC_NON_RESTORABLE_BITS_IN_PSR
      = notw SPARC_NON_RESTORABLE_BITS_IN_PSR)]

theorem w32_restoredPsr (x y : Nat) : w32 (restoredPsr x y) = restoredPsr x y := by
  refine w32_eq_of_lt ?_
  have h : restoredPsr x y < 2 ^ 32 := by
    refine Nat.or_lt_two_pow ?_ ?_
    · exact Nat.lt_of_le_of_lt Nat.and_le_right (by decide)
    · exact Nat.lt_of_le_of_lt Nat.and_le_right (by decide)
  simpa using h

/-- C2 (amended): restoring the record written by the save reproduces every
archived field; the status register is restored partially on the outermost
path only — there the bits of `SPARC_NON_RESTORABLE_BITS_IN_PSR` come from
the current `%l0` (which equals the PSR register at that point) and all other
bits from the archived value — while the nested path reloads the entire
status register verbatim from the archived record (which, in an undisturbed
run, holds the trap-entry PSR, so the two coincide there). -/
theorem save_restore_roundtrip (s sn q : TrapState) (m0 mn : Mem) (b bn : Nat)
    (hmem : s.mem = stSeq m0 b (outermostCtxWords q))
    (hsp : sp s = b) (hb : b + 76 ≤ 4294967296)
    (hmemn : sn.mem = stSeq mn bn (nestedCtxWords q))
    (hspn : sp sn = bn) (hbn : bn + 76 ≤ 4294967296) :
    (rdl (outermostRestoreContext s) 0 = restoredPsr (rdl s 0) (rdl q 0)
      ∧ rdl (outermostRestoreContext s) 0 &&& SPARC_NON_RESTORABLE_BITS_IN_PSR
          = rdl s 0 &&& SPARC_NON_RESTORABLE_BITS_IN_PSR
      ∧ rdl (outermostRestoreContext s) 0 &&& notw SPARC_NON_RESTORABLE_BITS_IN_PSR
          = rdl q 0 &&& notw SPARC_NON_RESTORABLE_BITS_IN_PSR)
  ∧ ((outermostRestoreContext s).g1 = w32 q.g1
      ∧ (outermostRestoreContext s).g2 = w32 q.g2
      ∧ (outermostRestoreContext s).g3 = w32 q.g3
      ∧ (outermostRestoreContext s).g4 = rdl q 4
      ∧ (outermostRestoreContext s).g5 = rdl q 5
      ∧ (outermostRestoreContext s).g6 = rdl q 6
      ∧ (outermostRestoreContext s).g7 = rdl q 7
      ∧ (∀ k, k < 8 → rdi (outermostRestoreContext s) k = rdi q k)
      ∧ (outermostRestoreContext s).yreg = w32 q.yreg
      ∧ rdl (outermostRestoreContext s) 1 = rdl q 1
      ∧ rdl (outermostRestoreContext s) 2 = rdl q 2)
  ∧ (rdl (nestedRestoreContext sn) 0 = rdl q 0
      ∧ (nestedRestoreContext sn).g1 = w32 q.g1
      ∧ (nestedRestoreContext sn).g2 = w32 q.g2
      ∧ (nestedRestoreContext sn).g3 = w32 q.g3
      ∧ (nestedRestoreContext sn).g4 = w32 q.g4
      ∧ (nestedRestoreContext sn).g5 = w32 q.g5
      ∧ (nestedRestoreContext sn).g6 = w32 q.g6
      ∧ (nestedRestoreContext sn).g7 = w32 q.g7
      ∧ (∀ k, k < 8 → rdi (nestedRestoreContext sn) k = rdi q k)
      ∧ (nestedRestoreContext sn).yreg = w32 q.yreg
      ∧ rdl (nestedRestoreContext sn) 1 = rdl q 1
      ∧ rdl (nestedRestoreContext sn) 2 = rdl q 2) := by
  have hload : ∀ j, j < 19 →
      ld s.mem (b + 4 * j) = w32 ((outermostCtxWords q).getD j 0) := by
    intro j hj
    rw [hmem]
    exact ld_stSeq _ _ _ _ (by simp [outermostCtxWords]; omega) (by simpa [outermostCtxWords] using hj)
  have hloadn : ∀ j, j < 19 →
      ld sn.mem (bn + 4 * j) = w32 ((nestedCtxWords q).getD j 0) := by
    intro j hj
    rw [hmemn]
    exact ld_stSeq _ _ _ _ (by simp [nestedCtxWords]; omega) (by simpa [nestedCtxWords] using hj)
  have h0 : ld s.mem b = rdl q 0 := (hload 0 (by omega)).trans (w32_rdl q 0)
  have h1 : ld s.mem (b + 4) = w32 q.g1 := hload 1 (by omega)
  have h2 : ld s.mem (b + 8) = w32 q.g2 := hload 2 (by omega)
  have h3 : ld s.mem (b + 12) = w32 q.g3 := hload 3 (by omega)
  have h4 : ld s.mem (b + 16) = rdl q 4 := (hload 4 (by omega)).trans (w32_rdl q 4)
  have h5 : ld s.mem (b + 20) = rdl q 5 := (hload 5 (by omega)).trans (w32_rdl q 5)
  have h6 : ld s.mem (b + 24) = rdl q 6 := (hload 6 (by omega)).trans (w32_rdl q 6)
  have h7 : ld s.mem (b + 28) = rdl q 7 := (hload 7 (by omega)).trans (w32_rdl q 7)
  have h8 : ld s.mem (b + 32) = rdi q 0 := (hload 8 (by omega)).trans (w32_rdi q 0)
  have h9 : ld s.mem (b + 36) = rdi q 1 := (hload 9 (by omega)).trans (w32_rdi q 1)
  have h10 : ld s.mem (b + 40) = rdi q 2 := (hload 10 (by omega)).trans (w32_rdi q 2)
  have h11 : ld s.mem (b + 44) = rdi q 3 := (hload 11 (by omega)).trans (w32_rdi q 3)
  have h12 : ld s.mem (b + 48) = rdi q 4 := (hload 12 (by omega)).trans (w32_rdi q 4)
  have h13 : ld s.mem (b + 52) = rdi q 5 := (hload 13 (by omega)).trans (w32_rdi q 5)
  have h14 : ld s.mem (b + 56) = rdi q 6 := (hload 14 (by omega)).trans (w32_rdi q 6)
  have h15 : ld s.mem (b + 60) = rdi q 7 := (hload 15 (by omega)).trans (w32_rdi q 7)
  have h16 : ld s.mem (b + 64) = w32 q.yreg := hload 16 (by omega)
  have h17 : ld s.mem (b + 68) = rdl q 1 := (hload 17 (by omega)).trans (w32_rdl q 1)
  have h18 : ld s.mem (b + 72) = rdl q 2 := (hload 18 (by omega)).trans (w32_rdl q 2)
  have n0 : ld sn.mem bn = rdl q 0 := (hloadn 0 (by omega)).trans (w32_rdl q 0)
  have n1 : ld sn.mem (bn + 4) = w32 q.g1 := hloadn 1 (by omega)
  have n2 : ld sn.mem (bn + 8) = w32 q.g2 := hloadn 2 (by omega)
  have n3 : ld sn.mem (bn + 12) = w32 q.g3 := hloadn 3 (by omega)
  have n4 : ld sn.mem (bn + 16) = w32 q.g4 := (hloadn 4 (by omega)).trans (w32_w32 q.g4)
  have n5 : ld sn.mem (bn + 20) = w32 q.g5 := (hloadn 5 (by omega)).trans (w32_w32 q.g5)
  have n6 : ld sn.mem (bn + 24) = w32 q.g6 := (hloadn 6 (by omega)).trans (w32_w32 q.g6)
  have n7 : ld sn.mem (bn + 28) = w32 q.g7 := (hloadn 7 (by omega)).trans (w32_w32 q.g7)
  have n8 : ld sn.mem (bn + 32) = rdi q 0 := (hloadn 8 (by omega)).trans (w32_rdi q 0)
  have n9 : ld sn.mem (bn + 36) = rdi q 1 := (hloadn 9 (by omega)).trans (w32_rdi q 1)
  have n10 : ld sn.mem (bn + 40) = rdi q 2 := (hloadn 10 (by omega)).trans (w32_rdi q 2)
  have n11 : ld sn.mem (bn + 44) = rdi q 3 := (hloadn 11 (by omega)).trans (w32_rdi q 3)
  have n12 : ld sn.mem (bn + 48) = rdi q 4 := (hloadn 12 (by omega)).trans (w32_rdi q 4)
  have n13 : ld sn.mem (bn + 52) = rdi q 5 := (hloadn 13 (by omega)).trans (w32_rdi q 5)
  have n14 : ld sn.mem (bn + 56) = rdi q 6 := (hloadn 14 (by omega)).trans (w32_rdi q 6)
  have n15 : ld sn.mem (bn + 60) = rdi q 7 := (hloadn 15 (by omega)).trans (w32_rdi q 7)
  have n16 : ld sn.mem (bn + 64) = w32 q.yreg := hloadn 16 (by omega)
  have n17 : ld sn.mem (bn + 68) = rdl q 1 := (hloadn 17 (by omega)).trans (w32_rdl q 1)
  have n18 : ld sn.mem (bn + 72) = rdl q 2 := (hloadn 18 (by omega)).trans (w32_rdl q 2)
  refine ⟨⟨?_, ?_, ?_⟩, ⟨?_, ?_, ?_, ?_, ?_, ?_, ?_, ?_, ?_, ?_, ?_⟩,
    ⟨?_, ?_, ?_, ?_, ?_, ?_, ?_, ?_, ?_, ?_, ?_, ?_⟩⟩
  · simp [outermostRestoreContext, rdl, wrl, wri, updw, w32_w32, hsp, w32_restoredPsr, h0,
      show ld s.mem b = rdl q 0 from h0]
  · simp [outermostRestoreContext, rdl, wrl, wri, updw, w32_w32, hsp, w32_restoredPsr,
      show ld s.mem b = rdl q 0 from h0, restoredPsr_and_mask]
  · simp [outermostRestoreContext, rdl, wrl, wri, updw, w32_w32, hsp, w32_restoredPsr,
      show ld s.mem b = rdl q 0 from h0, restoredPsr_and_not]
  · show ld s.mem (sp s + 4) = w32 q.g1
    rw [hsp]; exact h1
  · show ld s.mem (sp s + 8) = w32 q.g2
    rw [hsp]; exact h2
  · show ld s.mem (sp s + 12) = w32 q.g3
    rw [hsp]; exact h3
  · show ld s.mem (sp s + 16) = rdl q 4
    rw [hsp]; exact h4
  · show ld s.mem (sp s + 20) = rdl q 5
    rw [hsp]; exact h5
  · show ld s.mem (sp s + 24) = rdl q 6
    rw [hsp]; exact h6
  · show ld s.mem (sp s + 28) = rdl q 7
    rw [hsp]; exact h7
  · intro k hk
    interval_cases k <;>
      simp [outermostRestoreContext, rdi, rdl, wrl, wri, updw, w32_w32, hsp,
        h8, h9, h10, h11, h12, h13, h14, h15]
  · simp [outermostRestoreContext, rdl, wrl, wri, updw, w32_w32, hsp, h16]
  · simp [outermostRestoreContext, rdl, wrl, wri, updw, w32_w32, hsp, h17]
  · simp [outermostRestoreContext, rdl, wrl, wri, updw, w32_w32, hsp, h18]
  · simp [nestedRestoreContext, rdl, wrl, wri, updw, w32_w32, hspn,
      show ld sn.mem bn = rdl q 0 from n0]
  · show ld sn.mem (sp sn + 4) = w32 q.g1
    rw [hspn]; exact n1
  · show ld sn.mem (sp sn + 8) = w32 q.g2
    rw [hspn]; exact n2
  · show ld sn.mem (sp sn + 12) = w32 q.g3
    rw [hspn]; exact n3
  · show ld sn.mem (sp sn + 16) = w32 q.g4
    rw [hspn]; exact n4
  · show ld sn.mem (sp sn + 20) = w32 q.g5
    rw [hspn]; exact n5
  · show ld sn.mem (sp sn + 24) = w32 q.g6
    rw [hspn]; exact n6
  · show ld sn.mem (sp sn + 28) = w32 q.g7
    rw [hspn]; exact n7
  · intro k hk
    interval_cases k <;>
      simp [nestedRestoreContext, rdi, rdl, wrl, wri, updw, w32_w32, hspn,
        n8, n9, n10, n11, n12, n13, n14, n15]
  · simp [nestedRestoreContext, rdl, wrl, wri, updw, w32_w32, hspn, n16]
  · simp [nestedRestoreContext, rdl, wrl, wri, updw, w32_w32, hspn, n17]
  · simp [nestedRestoreContext, rdl, wrl, wri, updw, w32_w32, hspn, n18]

/-- Archived machine state used by the round-trip witness. -/
def rtQ : TrapState :=
  { baseState with
    psr := 5, yreg := 7, g1 := 11, g2 := 12, g3 := 13,
    wlocal := fun _ k => 100 + k, win := fun _ k => 200 + k }

/-- Machine state at the outermost restore point of the round-trip witness:
its memory holds the record written by the outermost save. -/
def rtS : TrapState :=
  { baseState with
    wlocal := fun _ _ => 3872,
    mem := stSeq (fun _ => 0) 0 (outermostCtxWords rtQ) }

/-- Machine state at the nested restore point of the round-trip witness. -/
def rtSn : TrapState :=
  { baseState with mem := stSeq (fun _ => 0) 0 (nestedCtxWords rtQ) }

/-- Witness for C2 (amended) at a concrete archived record. -/
theorem save_restore_roundtrip_witness :
    (rtS.mem = stSeq (fun _ => 0) 0 (outermostCtxWords rtQ)
      ∧ sp rtS = 0 ∧ (0 : Nat) + 76 ≤ 4294967296
      ∧ rtSn.mem = stSeq (fun _ => 0) 0 (nestedCtxWords rtQ) ∧ sp rtSn = 0)
  ∧ rdl (outermostRestoreContext rtS) 0 = restoredPsr (rdl rtS 0) (rdl rtQ 0)
  ∧ rdl (nestedRestoreContext rtSn) 0 = rdl rtQ 0 :=
  ⟨⟨rfl, by decide, by decide, rfl, by decide⟩,
   (save_restore_roundtrip rtS rtSn rtQ (fun _ => 0) (fun _ => 0) 0 0 rfl
      (by decide) (by decide) rfl (by decide) (by decide)).1.1,
   (save_restore_roundtrip rtS rtSn rtQ (fun _ => 0) (fun _ => 0) 0 0 rfl
      (by decide) (by decide) rfl (by decide) (by decide)).2.2.1⟩

/-- Counterexample to C2 as stated: on the nested path the status register is
not restored partially.  In this concrete state the current environment's
status register at restore time (3843 = PIL 15, CWP 3, held in both `%psr`
and `%l0`) has non-restorable bits 3840, but the archived record holds 0 and
the nested restore reloads the whole status register from it, so after the
restoring `wr %psr` the non-restorable bits are 0, not the environment's
3840. -/
theorem nested_restore_partial_cex :
    rdl { baseState with psr := 3843, wlocal := fun _ _ => 3843 } 0
      = ({ baseState with psr := 3843, wlocal := fun _ _ => 3843 } : TrapState).psr
  ∧ ¬ ((commonReturnFromTrap (nestedRestoreContext
        { baseState with psr := 3843, wlocal := fun _ _ => 3843 })).psr
          &&& SPARC_NON_RESTORABLE_BITS_IN_PSR
        = ({ baseState with psr := 3843, wlocal := fun _ _ => 3843 } : TrapState).psr
          &&& SPARC_NON_RESTORABLE_BITS_IN_PSR) :=
  ⟨by decide, by decide⟩

/-! ## Claim theorems for the nested free-frame guarantee -/

theorem wsub_one {n : Nat} (h1 : 1 ≤ n) (h2 : n ≤ 4294967296) : wsub n 1 = n - 1 := by
  unfold wsub; omega

theorem sll_one {t : Nat} (ht : t < 32) : sll 1 t = 1 <<< t := by
  unfold sll
  rw [Nat.mod_eq_of_lt ht]
  refine w32_eq_of_lt ?_
  rw [Nat.one_shiftLeft]
  calc 2 ^ t < 2 ^ 32 := Nat.pow_lt_pow_right (by omega) ht
  _ ≤ 4294967296 := by norm_num

theorem spill_wim {t nwin : Nat} (h1 : 2 ≤ nwin) (hn : nwin ≤ 32) (ht : t < nwin) :
    w32 (srl (1 <<< t) 1 ||| sll (1 <<< t) (nwin - 1)) &&& (2 ^ nwin - 1)
      = 1 <<< ((t + nwin - 1) % nwin) := by
  interval_cases nwin <;> interval_cases t <;> decide

theorem prev_mod {T n : Nat} (h2 : 2 ≤ n) (hT : T < n) :
    (T + n - 1) % n = if T = 0 then n - 1 else T - 1 := by
  by_cases h0 : T = 0
  · subst h0
    rw [if_pos rfl, Nat.zero_add, Nat.mod_eq_of_lt (by omega)]
  · rw [if_neg h0, show T + n - 1 = (T - 1) + 1 * n by omega,
      Nat.add_mul_mod_self_right, Nat.mod_eq_of_lt (by omega)]

theorem prev_ne {T n : Nat} (h2 : 2 ≤ n) (hT : T < n) :
    (T + n - 1) % n ≠ T ∧ (T + n - 1) % n < n
  ∧ ((T + n - 1) % n + 1) % n = T := by
  rw [prev_mod h2 hT]
  by_cases h0 : T = 0
  · subst h0
    rw [if_pos rfl]
    exact ⟨by omega, by omega, by rw [Nat.sub_add_cancel (by omega), Nat.mod_self]⟩
  · rw [if_neg h0]
    exact ⟨by omega, by omega, by rw [Nat.sub_add_cancel (by omega), Nat.mod_eq_of_lt hT]⟩

theorem setCwp_setCwp (p c1 c2 : Nat) : setCwp (setCwp p c1) c2 = setCwp p c2 := by
  unfold setCwp
  rw [or_and_distrib, Nat.and_assoc p, Nat.and_assoc c1,
    (by decide : SPARC_PSR_CWP_MASK &&& notw SPARC_PSR_CWP_MASK = 0), Nat.and_zero,
    Nat.or_zero,
    (by decide : notw SPARC_PSR_CWP_MASK &&& notw SPARC_PSR_CWP_MASK
      = notw SPARC_PSR_CWP_MASK)]

theorem setCwp_self {p : Nat} (hp : p < 4294967296) : setCwp p (cwp p) = p := by
  unfold setCwp cwp
  rw [Nat.and_assoc,
    (by decide : SPARC_PSR_CWP_MASK &&& SPARC_PSR_CWP_MASK = SPARC_PSR_CWP_MASK),
    ← and_or_distrib,
    (by decide : notw SPARC_PSR_CWP_MASK ||| SPARC_PSR_CWP_MASK = 4294967295),
    (by norm_num : (4294967295 : Nat) = 2 ^ 32 - 1),
    Nat.and_pow_two_sub_one_eq_mod, Nat.mod_eq_of_lt (by omega)]

theorem cwp_setCwp (p : Nat) {c : Nat} (hc : c ≤ 31) : cwp (setCwp p c) = c := by
  unfold setCwp cwp
  rw [or_and_distrib, Nat.and_assoc,
    (by decide : notw SPARC_PSR_CWP_MASK &&& SPARC_PSR_CWP_MASK = 0), Nat.and_zero,
    Nat.zero_or, Nat.and_assoc,
    (by decide : SPARC_PSR_CWP_MASK &&& SPARC_PSR_CWP_MASK = SPARC_PSR_CWP_MASK),
    show SPARC_PSR_CWP_MASK = 2 ^ 5 - 1 from rfl, Nat.and_pow_two_sub_one_eq_mod,
    Nat.mod_eq_of_lt (by omega)]

/-- The window that the nested free-frame step spills when it must: the
window immediately below the trap window (the least recently used one), the
trap window being the CWP field of the trap-entry PSR `%l0`. -/
def nestedSpillWindow (s : TrapState) : Nat :=
  (cwp (rdl s 0) + s.nwin - 1) % s.nwin

/-- The address the nested spill stores to: the stack pointer of the spilled
window (its out register 6, which by the window overlap is in register 6 of
the window below it). -/
def nestedSpillBase (s : TrapState) : Nat :=
  w32 (s.win ((nestedSpillWindow s + s.nwin - 1) % s.nwin) 6)

theorem windowWords_congr (x s : TrapState) (u : Nat)
    (hl : ∀ k, x.wlocal u k = s.wlocal u k) (hi : ∀ k, x.win u k = s.win u k) :
    windowWords x u = windowWords s u := by
  simp [windowWords, hl, hi]

theorem nestedEnsureFreeFrame_noop (s : TrapState)
    (h : s.wim ≠ sll 1 (cwp (rdl s 0))) :
    (nestedEnsureFreeFrame s).wim = s.wim
  ∧ (nestedEnsureFreeFrame s).mem = s.mem
  ∧ (nestedEnsureFreeFrame s).win = s.win
  ∧ (nestedEnsureFreeFrame s).psr = s.psr
  ∧ ∀ w k, w ≠ cwp s.psr → (nestedEnsureFreeFrame s).wlocal w k = s.wlocal w k := by
  rw [cwp] at h
  simp only [nestedEnsureFreeFrame, if_pos h]
  refine ⟨rfl, rfl, rfl, rfl, fun w k hw => ?_⟩
  simp only [wrl_wlocal, wrl_psr]
  rw [updw_ne _ _ _ _ _ _ (Or.inl hw), updw_ne _ _ _ _ _ _ (Or.inl hw),
    updw_ne _ _ _ _ _ _ (Or.inl hw), updw_ne _ _ _ _ _ _ (Or.inl hw)]

theorem wrl_wlocal_ne (s : TrapState) (k v w j : Nat) (hw : w ≠ cwp s.psr) :
    (wrl s k v).wlocal w j = s.wlocal w j := by
  show updw s.wlocal (cwp s.psr) k v w j = s.wlocal w j
  exact updw_ne _ _ _ _ _ _ (Or.inl hw)

theorem nestedSpillRegs_wlocal_ne (s : TrapState) (l5 l7 w k : Nat)
    (hw : w ≠ cwp s.psr) :
    (nestedSpillRegs s l5 l7).wlocal w k = s.wlocal w k := by
  show updw (updw (updw s.wlocal (cwp s.psr) 4 (srl l5 1)) (cwp s.psr) 5
      (srl l5 1 ||| sll l5 l7)) (cwp s.psr) 7 s.g5 w k = s.wlocal w k
  rw [updw_ne _ _ _ _ _ _ (Or.inl hw), updw_ne _ _ _ _ _ _ (Or.inl hw),
    updw_ne _ _ _ _ _ _ (Or.inl hw)]

theorem saveWin_psr (s : TrapState) :
    (saveWin s).psr = setCwp s.psr ((cwp s.psr + s.nwin - 1) % s.nwin) := rfl

theorem saveWin_nwin (s : TrapState) : (saveWin s).nwin = s.nwin := rfl

theorem wrwim_wim (s : TrapState) (v : Nat) :
    (wrwim s v).wim = w32 v &&& (2 ^ s.nwin - 1) := rfl

theorem sp_eq (s : TrapState) :
    sp s = w32 (s.win ((cwp s.psr + s.nwin - 1) % s.nwin) 6) := rfl

theorem nestedSpillRegs_psr (s : TrapState) (l5 l7 : Nat) :
    (nestedSpillRegs s l5 l7).psr = s.psr := rfl

theorem nestedSpillRegs_nwin (s : TrapState) (l5 l7 : Nat) :
    (nestedSpillRegs s l5 l7).nwin = s.nwin := rfl

theorem nestedSpillRegs_win (s : TrapState) (l5 l7 : Nat) :
    (nestedSpillRegs s l5 l7).win = s.win := rfl

theorem nestedSpillRegs_mem (s : TrapState) (l5 l7 : Nat) :
    (nestedSpillRegs s l5 l7).mem = s.mem := rfl

theorem nestedSpillRegs_wlocal (s : TrapState) (l5 l7 : Nat) :
    (nestedSpillRegs s l5 l7).wlocal
      = updw (updw (updw s.wlocal (cwp s.psr) 4 (srl l5 1)) (cwp s.psr) 5
          (srl l5 1 ||| sll l5 l7)) (cwp s.psr) 7 s.g5 := rfl

theorem nwo_wim (s : TrapState) (l5 l7 : Nat) :
    (nestedWindowOverflow s l5 l7).wim
      = w32 (srl l5 1 ||| sll l5 l7) &&& (2 ^ s.nwin - 1) := rfl

theorem nwo_win (s : TrapState) (l5 l7 : Nat) :
    (nestedWindowOverflow s l5 l7).win = s.win := rfl

theorem nwo_mem (s : TrapState) (l5 l7 : Nat) :
    (nestedWindowOverflow s l5 l7).mem
      = stSeq s.mem (sp (saveWin (nestedSpillRegs s l5 l7)))
          (windowWords (saveWin (nestedSpillRegs s l5 l7))
            (cwp (saveWin (nestedSpillRegs s l5 l7)).psr)) := rfl

theorem nwo_psr (s : TrapState) (l5 l7 : Nat) :
    (nestedWindowOverflow s l5 l7).psr
      = setCwp (setCwp s.psr ((cwp s.psr + s.nwin - 1) % s.nwin))
          ((cwp (setCwp s.psr ((cwp s.psr + s.nwin - 1) % s.nwin)) + 1) % s.nwin) := rfl

theorem nwo_wlocal (s : TrapState) (l5 l7 : Nat) :
    (nestedWindowOverflow s l5 l7).wlocal = (nestedSpillRegs s l5 l7).wlocal := rfl

theorem saveWin_wlocal_eq (s : TrapState) : (saveWin s).wlocal = s.wlocal := rfl

set_option maxHeartbeats 2000000 in
theorem nestedEnsureFreeFrame_spill (s : TrapState) (h2 : 2 ≤ s.nwin)
    (hn : s.nwin ≤ 32) (ht : cwp (rdl s 0) < s.nwin)
    (hw : cwp (rdl s 0) = cwp s.psr) (hp : s.psr < 4294967296)
    (h : s.wim = sll 1 (cwp (rdl s 0))) :
    (nestedEnsureFreeFrame s).wim = 1 <<< ((cwp (rdl s 0) + s.nwin - 1) % s.nwin)
  ∧ (nestedEnsureFreeFrame s).mem
      = stSeq s.mem (nestedSpillBase s) (windowWords s (nestedSpillWindow s))
  ∧ (nestedEnsureFreeFrame s).win = s.win
  ∧ (nestedEnsureFreeFrame s).psr = s.psr
  ∧ ∀ w k, w ≠ cwp s.psr → (nestedEnsureFreeFrame s).wlocal w k = s.wlocal w k := by
  have hcw : cwp s.psr < s.nwin := hw ▸ ht
  have hprev := prev_ne (T := cwp s.psr) h2 hcw
  have hcond : ¬ (s.wim ≠ sll 1 (rdl s 0 &&& SPARC_PSR_CWP_MASK)) :=
    not_not_intro (by rw [cwp] at h; exact h)
  have hstep : nestedEnsureFreeFrame s
      = nestedWindowOverflow
          (wrl (wrl (wrl (wrl s 7 (wsub s.nwin 1)) 4 (rdl s 0 &&& SPARC_PSR_CWP_MASK))
            6 (sll 1 (rdl s 0 &&& SPARC_PSR_CWP_MASK))) 5 s.wim)
          s.wim (wsub s.nwin 1) := by
    simp only [nestedEnsureFreeFrame, if_neg hcond]
  rw [hstep]
  refine ⟨?_, ?_, ?_, ?_, ?_⟩
  · rw [nwo_wim]
    simp only [wrl_nwin]
    rw [wsub_one (by omega) (by omega), h, sll_one (by omega), spill_wim h2 hn ht]
  · rw [nwo_mem, sp_eq]
    simp only [saveWin_win, saveWin_nwin, saveWin_psr, nestedSpillRegs_win,
      nestedSpillRegs_nwin, nestedSpillRegs_psr, wrl_win, wrl_nwin, wrl_psr,
      wrl_mem, nestedSpillRegs_mem]
    rw [cwp_setCwp _ (by omega)]
    rw [nestedSpillBase, nestedSpillWindow, hw]
    have hne : (cwp s.psr + s.nwin - 1) % s.nwin ≠ cwp s.psr := hprev.1
    refine congrArg₂ (stSeq s.mem) rfl ?_
    refine windowWords_congr _ _ _ (fun k => ?_) (fun k => ?_)
    · rw [saveWin_wlocal_eq, nestedSpillRegs_wlocal]
      simp only [wrl_wlocal, wrl_psr]
      rw [updw_ne _ _ _ _ _ _ (Or.inl hne), updw_ne _ _ _ _ _ _ (Or.inl hne),
        updw_ne _ _ _ _ _ _ (Or.inl hne), updw_ne _ _ _ _ _ _ (Or.inl hne),
        updw_ne _ _ _ _ _ _ (Or.inl hne), updw_ne _ _ _ _ _ _ (Or.inl hne),
        updw_ne _ _ _ _ _ _ (Or.inl hne)]
    · rfl
  · rw [nwo_win]
    simp only [wrl_win]
  · rw [nwo_psr]
    simp only [wrl_psr, wrl_nwin]
    rw [cwp_setCwp _ (by omega), setCwp_setCwp, hprev.2.2, setCwp_self hp]
  · intro w k hwk
    rw [nwo_wlocal, nestedSpillRegs_wlocal]
    simp only [wrl_wlocal, wrl_psr]
    rw [updw_ne _ _ _ _ _ _ (Or.inl hwk), updw_ne _ _ _ _ _ _ (Or.inl hwk),
      updw_ne _ _ _ _ _ _ (Or.inl hwk), updw_ne _ _ _ _ _ _ (Or.inl hwk),
      updw_ne _ _ _ _ _ _ (Or.inl hwk), updw_ne _ _ _ _ _ _ (Or.inl hwk),
      updw_ne _ _ _ _ _ _ (Or.inl hwk)]

/-- C4 (amended): at nested trap entry, the ensure-one-free-frame step spills
a register frame if and only if the trap frame itself is currently the
invalid frame (the code compares the WIM against the mask of the trap
window, not of the window above it); in that case it spills the sixteen
32-bit words of the least-recently-used in-use frame (the window immediately
below the trap window) to that frame's stack pointer and advances the
invalid-frame marker by one position (rotates the window-invalid mask right
by one), and otherwise it changes neither the register frames of the other
windows nor the invalid-frame marker nor memory (only trap-window scratch
locals). -/
theorem nested_ensure_one_free_frame (s : TrapState) (h2 : 2 ≤ s.nwin)
    (hn : s.nwin ≤ 32) (ht : cwp (rdl s 0) < s.nwin)
    (hw : cwp (rdl s 0) = cwp s.psr) (hp : s.psr < 4294967296) :
    (s.wim ≠ 1 <<< cwp (rdl s 0) →
        (nestedEnsureFreeFrame s).wim = s.wim
      ∧ (nestedEnsureFreeFrame s).mem = s.mem
      ∧ (nestedEnsureFreeFrame s).win = s.win
      ∧ (nestedEnsureFreeFrame s).psr = s.psr
      ∧ ∀ w k, w ≠ cwp s.psr → (nestedEnsureFreeFrame s).wlocal w k = s.wlocal w k)
  ∧ (s.wim = 1 <<< cwp (rdl s 0) →
        (nestedEnsureFreeFrame s).wim
          = 1 <<< ((cwp (rdl s 0) + s.nwin - 1) % s.nwin)
      ∧ (nestedEnsureFreeFrame s).mem
          = stSeq s.mem (nestedSpillBase s) (windowWords s (nestedSpillWindow s))
      ∧ (nestedEnsureFreeFrame s).win = s.win
      ∧ (nestedEnsureFreeFrame s).psr = s.psr
      ∧ ∀ w k, w ≠ cwp s.psr →
          (nestedEnsureFreeFrame s).wlocal w k = s.wlocal w k) := by
  constructor
  · intro h
    exact nestedEnsureFreeFrame_noop s (by rwa [sll_one (by omega)])
  · intro h
    exact nestedEnsureFreeFrame_spill s h2 hn ht hw hp (by rwa [sll_one (by omega)])

/-- Witness for C4 (amended): eight windows, trap window 3, WIM = 8 (the
trap window is the invalid one), so a spill happens and the marker rotates
to window 2. -/
theorem nested_ensure_one_free_frame_witness :
    (2 ≤ ({ baseState with psr := 3, wlocal := fun _ _ => 3, wim := 8 } : TrapState).nwin
      ∧ ({ baseState with psr := 3, wlocal := fun _ _ => 3, wim := 8 } : TrapState).wim
          = 1 <<< cwp (rdl { baseState with psr := 3, wlocal := fun _ _ => 3, wim := 8 } 0))
  ∧ (nestedEnsureFreeFrame
        { baseState with psr := 3, wlocal := fun _ _ => 3, wim := 8 }).wim
      = 1 <<< ((cwp (rdl { baseState with psr := 3, wlocal := fun _ _ => 3, wim := 8 } 0)
          + ({ baseState with psr := 3, wlocal := fun _ _ => 3, wim := 8 } : TrapState).nwin - 1)
            % ({ baseState with psr := 3, wlocal := fun _ _ => 3, wim := 8 } : TrapState).nwin) :=
  ⟨⟨by decide, by decide⟩,
    ((nested_ensure_one_free_frame
        { baseState with psr := 3, wlocal := fun _ _ => 3, wim := 8 }
        (by decide) (by decide) (by decide) (by decide) (by decide)).2 (by decide)).1⟩

/-- Counterexample to C4 as stated: eight windows, trap window 3, and the
window immediately above the trap frame (window 4, mask 16) is the invalid
one — the claim's condition holds, so it predicts a spill that advances the
invalid-frame marker — yet the routine is a no-op: the code checks the trap
window's own mask (8) against the WIM (16), finds them different, and leaves
the WIM, memory and the register frames unchanged. -/
theorem nested_ensure_one_free_frame_cex :
    1 <<< ((cwp (rdl { baseState with psr := 3, wlocal := fun _ _ => 3, wim := 16 } 0) + 1)
        % ({ baseState with psr := 3, wlocal := fun _ _ => 3, wim := 16 } : TrapState).nwin)
      = ({ baseState with psr := 3, wlocal := fun _ _ => 3, wim := 16 } : TrapState).wim
  ∧ (nestedEnsureFreeFrame
        { baseState with psr := 3, wlocal := fun _ _ => 3, wim := 16 }).wim
      = ({ baseState with psr := 3, wlocal := fun _ _ => 3, wim := 16 } : TrapState).wim
  ∧ (nestedEnsureFreeFrame
        { baseState with psr := 3, wlocal := fun _ _ => 3, wim := 16 }).mem
      = ({ baseState with psr := 3, wlocal := fun _ _ => 3, wim := 16 } : TrapState).mem
  ∧ (nestedEnsureFreeFrame
        { baseState with psr := 3, wlocal := fun _ _ => 3, wim := 16 }).win
      = ({ baseState with psr := 3, wlocal := fun _ _ => 3, wim := 16 } : TrapState).win :=
  ⟨by decide, by decide, rfl, rfl⟩

/-! ## Claim theorems for the context save paths -/

theorem outermostStoreWords_mem (s : TrapState) :
    (outermostStoreWords s).mem = stSeq s.mem s.g4 (outermostCtxWords s) := rfl

theorem outermostStoreWords_activeCtx (s : TrapState) :
    (outermostStoreWords s).activeCtx = s.activeCtx := rfl

theorem outermostNullRedirect_mem (s : TrapState) :
    (outermostNullRedirect s).mem = s.mem := rfl

theorem outermostNullRedirect_g4 (s : TrapState) :
    (outermostNullRedirect s).g4 = s.nullCtx := rfl

theorem outermostNullRedirect_activeCtx (s : TrapState) :
    (outermostNullRedirect s).activeCtx = s.nullCtx := rfl

theorem outermostCtxWords_nullRedirect (s : TrapState) :
    outermostCtxWords (outermostNullRedirect s) = outermostCtxWords s := rfl

theorem outermostCtxWords_regularDest (s : TrapState) (g4 frozen : Nat) :
    outermostCtxWords (outermostRegularDest s g4 frozen) = outermostCtxWords s := rfl

theorem outermostCtxWords_length (s : TrapState) : (outermostCtxWords s).length = 19 := rfl

theorem nestedCtxWords_length (s : TrapState) : (nestedCtxWords s).length = 19 := rfl

/-- C1: if the frozen flag word (offset 76) of the record designated by
`active_thread_context_stack_pointer` is nonzero at the outermost save, the
save writes nothing into that original record (all twenty of its words are
unchanged), writes the nineteen saved context words into the static
`sparcNullTaskContextData` record instead, and updates the active context
pointer to the null record's address.  The records are assumed disjoint and
within the address space, as the linker guarantees for distinct objects. -/
theorem frozen_redirect (s : TrapState)
    (hfz : ld s.mem (s.activeCtx + 76) ≠ 0)
    (hnull : s.nullCtx + 76 < 4294967296)
    (hdisj : ∀ i, i < 20 → ∀ j, j < 19 → s.activeCtx + 4 * i ≠ s.nullCtx + 4 * j) :
    (outermostSaveContext s).activeCtx = s.nullCtx
  ∧ (∀ i, i < 20 → (outermostSaveContext s).mem (s.activeCtx + 4 * i)
        = s.mem (s.activeCtx + 4 * i))
  ∧ (∀ j, j < 19 → (outermostSaveContext s).mem (s.nullCtx + 4 * j)
        = w32 ((outermostCtxWords s).getD j 0)) := by
  have hres : outermostSaveContext s = outermostStoreWords (outermostNullRedirect s) := by
    simp only [outermostSaveContext, if_pos hfz]
  rw [hres]
  have hmem : (outermostStoreWords (outermostNullRedirect s)).mem
      = stSeq s.mem s.nullCtx (outermostCtxWords s) := by
    rw [outermostStoreWords_mem, outermostNullRedirect_mem, outermostNullRedirect_g4,
      outermostCtxWords_nullRedirect]
  refine ⟨rfl, ?_, ?_⟩
  · intro i hi
    rw [hmem]
    refine stSeq_miss _ _ _ _ fun j hj => ?_
    rw [outermostCtxWords_length] at hj
    rw [w32_eq_of_lt (by omega)]
    exact hdisj i hi j hj
  · intro j hj
    rw [hmem]
    exact stSeq_hit _ _ _ _ (by rw [outermostCtxWords_length]; omega)
      (by rw [outermostCtxWords_length]; omega)

/-- Concrete machine state for the frozen-redirect witness: the active record
at address 0 (frozen flag 9 at offset 76), the null record at address 80. -/
def frzS : TrapState := { baseState with mem := fun a => if a = 76 then 9 else 0 }

/-- Witness for C1 at `frzS`. -/
theorem frozen_redirect_witness :
    (ld frzS.mem (frzS.activeCtx + 76) ≠ 0
      ∧ frzS.nullCtx + 76 < 4294967296
      ∧ (∀ i, i < 20 → ∀ j, j < 19 → frzS.activeCtx + 4 * i ≠ frzS.nullCtx + 4 * j))
  ∧ (outermostSaveContext frzS).activeCtx = frzS.nullCtx
  ∧ (∀ i, i < 20 → (outermostSaveContext frzS).mem (frzS.activeCtx + 4 * i)
        = frzS.mem (frzS.activeCtx + 4 * i)) :=
  ⟨⟨by decide, by decide, by decide⟩,
   (frozen_redirect frzS (by decide) (by decide) (by decide)).1,
   (frozen_redirect frzS (by decide) (by decide) (by decide)).2.1⟩

/-- The address of the nested save's stack record: 80 bytes carved below the
interrupted trap's frame pointer. -/
def nestedSaveDest (s : TrapState) : Nat :=
  wsub (fp s) SPARC_STACK_BASE_CONTEXT_RESERVATION_SIZE

theorem w32_wsub (a b : Nat) : w32 (wsub a b) = wsub a b := by
  unfold w32 wsub; omega

theorem sp_wro6 (s : TrapState) (v : Nat) : sp (wro s 6 v) = w32 v := by
  show w32 (updw s.win (prevw s (cwp s.psr)) 6 v (prevw s (cwp s.psr)) 6) = w32 v
  rw [updw_eq, w32_w32]

/-- The non-destination part of memory is untouched by the outermost save:
only the nineteen word addresses of `outermostSaveDest` are written. -/
theorem outermostSave_mem_miss (s : TrapState) (x : Nat)
    (hx : ∀ j, j < 19 → x ≠ w32 (outermostSaveDest s + 4 * j)) :
    (outermostSaveContext s).mem x = s.mem x := by
  by_cases hf : ld s.mem (s.activeCtx + 76) ≠ 0
  · have hres : outermostSaveContext s
        = outermostStoreWords (outermostNullRedirect s) := by
      simp only [outermostSaveContext, if_pos hf]
    have hdest : outermostSaveDest s = s.nullCtx := by
      rw [outermostSaveDest, if_pos hf]
    rw [hres, outermostStoreWords_mem, outermostNullRedirect_mem,
      outermostNullRedirect_g4, outermostCtxWords_nullRedirect]
    refine stSeq_miss _ _ _ _ fun j hj => ?_
    rw [outermostCtxWords_length] at hj
    rw [← hdest]
    exact hx j hj
  · have hres : outermostSaveContext s
        = outermostStoreWords
            (outermostRegularDest s s.activeCtx (ld s.mem (s.activeCtx + 76))) := by
      simp only [outermostSaveContext, if_neg hf]
    have hdest : outermostSaveDest s = s.activeCtx := by
      rw [outermostSaveDest, if_neg hf]
    rw [hres, outermostStoreWords_mem]
    refine stSeq_miss _ _ _ _ fun j hj => ?_
    rw [outermostCtxWords_regularDest, outermostCtxWords_length] at hj
    rw [show (outermostRegularDest s s.activeCtx (ld s.mem (s.activeCtx + 76))).g4
        = s.activeCtx from rfl, ← hdest]
    exact hx j hj

/-- The non-destination part of memory is untouched by the nested save. -/
theorem nestedSave_mem_miss (s : TrapState) (x : Nat)
    (hx : ∀ j, j < 19 → x ≠ w32 (nestedSaveDest s + 4 * j)) :
    (nestedSaveContext s).mem x = s.mem x := by
  have hnmem : (nestedSaveContext s).mem
      = stSeq s.mem
          (sp (wro s 6 (wsub (fp s) SPARC_STACK_BASE_CONTEXT_RESERVATION_SIZE)))
          (nestedCtxWords
            (wro s 6 (wsub (fp s) SPARC_STACK_BASE_CONTEXT_RESERVATION_SIZE))) := rfl
  rw [hnmem, sp_wro6, w32_wsub]
  refine stSeq_miss _ _ _ _ fun j hj => ?_
  rw [nestedCtxWords_length] at hj
  exact hx j hj

/-- The outermost save's destination is the active or the null record. -/
theorem outermostSaveDest_cases (u : TrapState) :
    outermostSaveDest u = u.nullCtx ∨ outermostSaveDest u = u.activeCtx := by
  unfold outermostSaveDest
  split
  · exact Or.inl rfl
  · exact Or.inr rfl

/-- Effect of the outermost save on the active context pointer. -/
theorem outermostSaveContext_activeCtx_eq (u : TrapState) :
    (outermostSaveContext u).activeCtx
      = (if ld u.mem (u.activeCtx + 76) ≠ 0 then u.nullCtx else u.activeCtx) := by
  by_cases hf : ld u.mem (u.activeCtx + 76) ≠ 0
  · rw [if_pos hf]
    have hres : outermostSaveContext u
        = outermostStoreWords (outermostNullRedirect u) := by
      simp only [outermostSaveContext, if_pos hf]
    rw [hres, outermostStoreWords_activeCtx, outermostNullRedirect_activeCtx]
  · rw [if_neg hf]
    have hres : outermostSaveContext u
        = outermostStoreWords
            (outermostRegularDest u u.activeCtx (ld u.mem (u.activeCtx + 76))) := by
      simp only [outermostSaveContext, if_neg hf]
    rw [hres, outermostStoreWords_activeCtx]
    rfl

/-- The destination selection reads memory only through the frozen-flag word
at offset 76 of the active record. -/
theorem outermostSaveDest_mem_congr (u : TrapState) (m' : Mem)
    (h : m' (w32 (u.activeCtx + 76)) = u.mem (w32 (u.activeCtx + 76))) :
    outermostSaveDest { u with mem := m' } = outermostSaveDest u := by
  have hld : ld m' (u.activeCtx + 76) = ld u.mem (u.activeCtx + 76) := by
    unfold ld
    rw [h]
  unfold outermostSaveDest
  rw [show ({ u with mem := m' } : TrapState).activeCtx = u.activeCtx from rfl,
    show ({ u with mem := m' } : TrapState).mem = m' from rfl,
    show ({ u with mem := m' } : TrapState).nullCtx = u.nullCtx from rfl, hld]

/-! ### Memory frame lemmas for the two full trap paths -/

theorem windowWords_length (s : TrapState) (w : Nat) : (windowWords s w).length = 16 := rfl

theorem restoreWin_nwin (s : TrapState) : (restoreWin s).nwin = s.nwin := rfl

theorem restoreWin_activeCtx (s : TrapState) : (restoreWin s).activeCtx = s.activeCtx := rfl

theorem restoreWin_nullCtx (s : TrapState) : (restoreWin s).nullCtx = s.nullCtx := rfl

theorem wrl_nullCtx (s : TrapState) (k v : Nat) : (wrl s k v).nullCtx = s.nullCtx := rfl

theorem wri_nullCtx (s : TrapState) (k v : Nat) : (wri s k v).nullCtx = s.nullCtx := rfl

theorem wro_nullCtx (s : TrapState) (k v : Nat) : (wro s k v).nullCtx = s.nullCtx := rfl

theorem wrpsr_nullCtx (s : TrapState) (v : Nat) : (wrpsr s v).nullCtx = s.nullCtx := rfl

theorem wrwim_nullCtx (s : TrapState) (v : Nat) : (wrwim s v).nullCtx = s.nullCtx := rfl

theorem wri_activeCtx (s : TrapState) (k v : Nat) :
    (wri s k v).activeCtx = s.activeCtx := rfl

theorem wrpsr_activeCtx (s : TrapState) (v : Nat) : (wrpsr s v).activeCtx = s.activeCtx := rfl

theorem wrwim_activeCtx (s : TrapState) (v : Nat) : (wrwim s v).activeCtx = s.activeCtx := rfl

theorem wri_nwin (s : TrapState) (k v : Nat) : (wri s k v).nwin = s.nwin := rfl

theorem wrwim_nwin (s : TrapState) (v : Nat) : (wrwim s v).nwin = s.nwin := rfl

theorem nwo_nwin (s : TrapState) (l5 l7 : Nat) :
    (nestedWindowOverflow s l5 l7).nwin = s.nwin := rfl

theorem dumpIter_win (u : TrapState) : (dumpIter u).win = u.win := rfl

theorem dumpIter_nwin (u : TrapState) : (dumpIter u).nwin = u.nwin := rfl

theorem dumpIter_activeCtx (u : TrapState) : (dumpIter u).activeCtx = u.activeCtx := rfl

theorem dumpIter_nullCtx (u : TrapState) : (dumpIter u).nullCtx = u.nullCtx := rfl

/-- A dump iteration stores sixteen words at the stack pointer of the window
entered by its `restore`. -/
theorem dumpIter_mem (u : TrapState) :
    (dumpIter u).mem
      = stSeq u.mem (sp (restoreWin u))
          (windowWords (restoreWin u) (cwp (restoreWin u).psr)) := rfl

/-- Every store of a dump iteration lands inside the sixteen-word frame at
some window's saved stack pointer. -/
theorem dumpIter_mem_frame (u : TrapState) (x : Nat) (h1 : 0 < u.nwin)
    (hx : ∀ w, w < u.nwin → ∀ j, j < 16 → x ≠ w32 (w32 (u.win w 6) + 4 * j)) :
    (dumpIter u).mem x = u.mem x := by
  rw [dumpIter_mem]
  refine stSeq_miss _ _ _ _ fun j hj => ?_
  rw [windowWords_length] at hj
  rw [sp_eq, restoreWin_win, restoreWin_nwin]
  exact hx _ (Nat.mod_lt _ h1) j hj

theorem outermostDumpLoop_succ (n : Nat) (u : TrapState) :
    outermostDumpLoop (n + 1) u
      = (if (dumpIter u).g5 = (dumpIter u).g6 then dumpIter u
          else outermostDumpLoop n (dumpIter u)) := rfl

/-- The dump loop writes only inside the sixteen-word frames at the windows'
saved stack pointers, and does not move the context pointers. -/
theorem outermostDumpLoop_frame (x : Nat) : ∀ (n : Nat) (u : TrapState), 0 < u.nwin →
    (∀ w, w < u.nwin → ∀ j, j < 16 → x ≠ w32 (w32 (u.win w 6) + 4 * j)) →
    (outermostDumpLoop n u).mem x = u.mem x
  ∧ (outermostDumpLoop n u).activeCtx = u.activeCtx
  ∧ (outermostDumpLoop n u).nullCtx = u.nullCtx := by
  intro n
  induction n with
  | zero => exact fun u _ _ => ⟨rfl, rfl, rfl⟩
  | succ n ih =>
    intro u h1 hx
    have hmem := dumpIter_mem_frame u x h1 hx
    have h1' : 0 < (dumpIter u).nwin := by rw [dumpIter_nwin]; exact h1
    have hx' : ∀ w, w < (dumpIter u).nwin → ∀ j, j < 16 →
        x ≠ w32 (w32 ((dumpIter u).win w 6) + 4 * j) := by
      rw [dumpIter_nwin, dumpIter_win]
      exact hx
    rw [outermostDumpLoop_succ]
    by_cases h : (dumpIter u).g5 = (dumpIter u).g6
    · rw [if_pos h]
      exact ⟨hmem, dumpIter_activeCtx u, dumpIter_nullCtx u⟩
    · rw [if_neg h]
      obtain ⟨e1, e2, e3⟩ := ih (dumpIter u) h1' hx'
      exact ⟨e1.trans hmem, e2.trans (dumpIter_activeCtx u),
        e3.trans (dumpIter_nullCtx u)⟩

theorem outermostDumpSetup_state (u : TrapState) :
    (outermostDumpSetup u).mem = u.mem
  ∧ (outermostDumpSetup u).win = u.win
  ∧ (outermostDumpSetup u).nwin = u.nwin
  ∧ (outermostDumpSetup u).activeCtx = u.activeCtx
  ∧ (outermostDumpSetup u).nullCtx = u.nullCtx := by
  refine ⟨?_, ?_, ?_, ?_, ?_⟩ <;>
    simp only [outermostDumpSetup, wrl_mem, wrl_win, wrl_nwin, wrl_activeCtx, wrl_nullCtx]

theorem outermostDumpFinish_state (u : TrapState) :
    (outermostDumpFinish u).mem = u.mem
  ∧ (outermostDumpFinish u).activeCtx = u.activeCtx
  ∧ (outermostDumpFinish u).nullCtx = u.nullCtx := by
  refine ⟨?_, ?_, ?_⟩ <;>
    simp only [outermostDumpFinish, wrl_mem, wrpsr_mem, wrwim_mem, wrl_activeCtx,
      wrpsr_activeCtx, wrwim_activeCtx, wrl_nullCtx, wrpsr_nullCtx, wrwim_nullCtx]

/-- The whole outermost window dump writes only inside the windows' stack
frames and does not move the context pointers. -/
theorem outermostDump_frame (s : TrapState) (x : Nat) (h1 : 0 < s.nwin)
    (hx : ∀ w, w < s.nwin → ∀ j, j < 16 → x ≠ w32 (w32 (s.win w 6) + 4 * j)) :
    (outermostDump s).mem x = s.mem x
  ∧ (outermostDump s).activeCtx = s.activeCtx
  ∧ (outermostDump s).nullCtx = s.nullCtx := by
  obtain ⟨m1, w1, n1, a1, c1⟩ := outermostDumpSetup_state s
  have h1' : 0 < (outermostDumpSetup s).nwin := by rw [n1]; exact h1
  have hx' : ∀ w, w < (outermostDumpSetup s).nwin → ∀ j, j < 16 →
      x ≠ w32 (w32 ((outermostDumpSetup s).win w 6) + 4 * j) := by
    rw [n1, w1]
    exact hx
  obtain ⟨m2, a2, c2⟩ := outermostDumpLoop_frame x s.nwin (outermostDumpSetup s) h1' hx'
  rw [show outermostDump s
      = outermostDumpFinish (outermostDumpLoop s.nwin (outermostDumpSetup s)) from rfl]
  refine ⟨?_, ?_, ?_⟩
  · rw [(outermostDumpFinish_state _).1, m2, m1]
  · rw [(outermostDumpFinish_state _).2.1, a2, a1]
  · rw [(outermostDumpFinish_state _).2.2, c2, c1]

theorem interruptCallEntry_mem (u : TrapState) : (interruptCallEntry u).mem = u.mem := rfl

theorem replacementCallEntry_mem (u : TrapState) :
    (replacementCallEntry u).mem = u.mem := rfl

/-- The dispatch block itself stores nothing; any memory effect at `x` is the
collaborator's, excluded by the frame hypotheses. -/
theorem handlerDispatch_mem (ic tc : TrapState → TrapState) (x : Nat)
    (hic : ∀ v, (ic v).mem x = v.mem x) (htc : ∀ v, (tc v).mem x = v.mem x)
    (u : TrapState) : (handlerDispatch ic tc u).mem x = u.mem x := by
  show (if rdl u 3 &&& 32 ≠ 0 then tc (replacementCallEntry u)
      else ic (interruptCallEntry u)).mem x = u.mem x
  by_cases h : rdl u 3 &&& 32 ≠ 0
  · rw [if_pos h, htc]; rfl
  · rw [if_neg h, hic]; rfl

theorem outermostMakeCallFrame_mem (u : TrapState) :
    (outermostMakeCallFrame u).mem = u.mem := rfl

theorem outermostDisableTraps_mem (u : TrapState) :
    (outermostDisableTraps u).mem = u.mem := rfl

theorem outermostClearFlag_mem (u : TrapState) : (outermostClearFlag u).mem = u.mem := rfl

theorem outermostLoadContextPointer_mem (u : TrapState) :
    (outermostLoadContextPointer u).mem = u.mem := rfl

theorem outermostRestoreContext_mem (u : TrapState) :
    (outermostRestoreContext u).mem = u.mem := by
  simp only [outermostRestoreContext, wrl_mem, wri_mem]

theorem outermostRefillRotate_mem (u : TrapState) :
    (outermostRefillRotate u).mem = u.mem := by
  unfold outermostRefillRotate
  rw [restoreWin_mem, wrwim_mem, wrl_mem, wrl_mem, wrl_mem, wrl_mem]

theorem outermostRefillLoads_mem (u : TrapState) :
    (outermostRefillLoads u).mem = u.mem := by
  simp only [outermostRefillLoads, wrl_mem, wri_mem]

theorem outermostRefillSaveBack_mem (u : TrapState) :
    (outermostRefillSaveBack u).mem = u.mem := rfl

/-- The underflow refill only loads from memory; it stores nothing. -/
theorem outermostUnderflowRefill_mem (u : TrapState) :
    (outermostUnderflowRefill u).mem = u.mem := by
  rw [outermostUnderflowRefill, outermostRefillSaveBack_mem, outermostRefillLoads_mem,
    outermostRefillRotate_mem]

theorem commonReturnFromTrap_mem (u : TrapState) :
    (commonReturnFromTrap u).mem = u.mem := rfl

theorem nestedMakeCallFrame_mem (u : TrapState) : (nestedMakeCallFrame u).mem = u.mem := rfl

theorem nestedDisableTraps_mem (u : TrapState) : (nestedDisableTraps u).mem = u.mem := rfl

theorem nestedRestoreContext_mem (u : TrapState) :
    (nestedRestoreContext u).mem = u.mem := by
  simp only [nestedRestoreContext, wrl_mem, wri_mem]

theorem nestedRefillRotate_mem (u : TrapState) (l4 l5 : Nat) :
    (nestedRefillRotate u l4 l5).mem = u.mem := by
  unfold nestedRefillRotate
  rw [restoreWin_mem, wrwim_mem, wrl_mem, wrl_mem]

theorem nestedRefillLoads_mem (u : TrapState) : (nestedRefillLoads u).mem = u.mem := by
  simp only [nestedRefillLoads, wrl_mem, wri_mem]

/-- The nested exit refill only loads from memory; it stores nothing. -/
theorem nestedMaybeRefill_mem (u : TrapState) : (nestedMaybeRefill u).mem = u.mem := by
  simp only [nestedMaybeRefill]
  split
  · rfl
  · rw [saveWin_mem, nestedRefillLoads_mem, nestedRefillRotate_mem,
      wrl_mem, wrl_mem, wrl_mem, wrl_mem]

theorem nestedEnsureFreeFrame_win (u : TrapState) :
    (nestedEnsureFreeFrame u).win = u.win := by
  simp only [nestedEnsureFreeFrame]
  split
  · rfl
  · rw [nwo_win, wrl_win, wrl_win, wrl_win, wrl_win]

theorem nestedEnsureFreeFrame_psr (u : TrapState) (h2 : 2 ≤ u.nwin)
    (hn32 : u.nwin ≤ 32) (hcw : cwp u.psr < u.nwin) (hp : u.psr < 4294967296) :
    (nestedEnsureFreeFrame u).psr = u.psr := by
  simp only [nestedEnsureFreeFrame]
  split
  · rfl
  · rw [nwo_psr]
    simp only [wrl_psr, wrl_nwin]
    rw [cwp_setCwp _ (by
        have hl := Nat.mod_lt (cwp u.psr + u.nwin - 1) (show 0 < u.nwin by omega)
        omega),
      setCwp_setCwp, (prev_ne h2 hcw).2.2, setCwp_self hp]

/-- The free-frame step stores only inside the sixteen-word frame at the
spilled window's saved stack pointer (or nothing at all when it need not
spill). -/
theorem nestedEnsureFreeFrame_mem_frame (u : TrapState) (x : Nat) (h1 : 0 < u.nwin)
    (hx : ∀ w, w < u.nwin → ∀ j, j < 16 → x ≠ w32 (w32 (u.win w 6) + 4 * j)) :
    (nestedEnsureFreeFrame u).mem x = u.mem x := by
  simp only [nestedEnsureFreeFrame]
  split
  · rfl
  · rw [nwo_mem]
    refine Eq.trans (stSeq_miss _ _ _ _ fun j hj => ?_) ?_
    · rw [windowWords_length] at hj
      rw [sp_eq, saveWin_win, nestedSpillRegs_win, wrl_win, wrl_win, wrl_win, wrl_win,
        saveWin_nwin, nestedSpillRegs_nwin, wrl_nwin, wrl_nwin, wrl_nwin, wrl_nwin]
      exact hx _ (Nat.mod_lt _ h1) j hj
    · simp only [wrl_mem]

/-- C10: neither save path ever writes the frozen-flag word of its
destination record: the outermost save writes only the nineteen words at
byte offsets 0 through 72 of its destination (the active record, or the null
record under the frozen redirect) and the nested save writes only offsets 0
through 72 of its stack record, so the words at offset 76 are untouched; the
saves read their destination's prior contents only through the frozen-flag
word at offset 76 (the destination selection is unchanged under any
modification of memory away from that word, and the nineteen stored words
are register values, independent of memory); and every other store of either
full trap path — the outermost window dump, the nested window spill, the
refills (which only load) — lands inside a sixteen-word register frame at
one of the windows' saved stack pointers, so along a whole trap entry and
exit (with collaborators that respect the frame) every address outside those
frames and outside the nineteen-word destination records — in particular the
frozen-flag word of every TaskContext record placed there — is preserved
unchanged. -/
theorem save_paths_write_only_context_words (ic tc : TrapState → TrapState)
    (s : TrapState) (x : Nat)
    (hic : ∀ v, (ic v).mem x = v.mem x)
    (htc : ∀ v, (tc v).mem x = v.mem x)
    (h2 : 2 ≤ s.nwin) (hn32 : s.nwin ≤ 32) (hcw : cwp s.psr < s.nwin)
    (hp : s.psr < 4294967296)
    (hframes : ∀ w, w < s.nwin → ∀ j, j < 16 → x ≠ w32 (w32 (s.win w 6) + 4 * j))
    (hctx : ∀ j, j < 19 → x ≠ w32 (s.activeCtx + 4 * j) ∧ x ≠ w32 (s.nullCtx + 4 * j))
    (hnsave : ∀ j, j < 19 →
        x ≠ w32 (wsub (w32 (s.win (cwp s.psr) 6))
              SPARC_STACK_BASE_CONTEXT_RESERVATION_SIZE + 4 * j)) :
    (∀ u y, (∀ j, j < 19 → y ≠ w32 (outermostSaveDest u + 4 * j)) →
        (outermostSaveContext u).mem y = u.mem y)
  ∧ (∀ u, outermostSaveDest u + 76 < 4294967296 →
      (outermostSaveContext u).mem (outermostSaveDest u + 76)
        = u.mem (outermostSaveDest u + 76))
  ∧ (∀ u, (outermostSaveContext u).activeCtx
      = (if ld u.mem (u.activeCtx + 76) ≠ 0 then u.nullCtx else u.activeCtx))
  ∧ (∀ u y, (∀ j, j < 19 → y ≠ w32 (nestedSaveDest u + 4 * j)) →
        (nestedSaveContext u).mem y = u.mem y)
  ∧ (∀ u, nestedSaveDest u + 76 < 4294967296 →
      (nestedSaveContext u).mem (nestedSaveDest u + 76)
        = u.mem (nestedSaveDest u + 76))
  ∧ (∀ u m', m' (w32 (u.activeCtx + 76)) = u.mem (w32 (u.activeCtx + 76)) →
        outermostSaveDest { u with mem := m' } = outermostSaveDest u)
  ∧ (∀ u m', outermostCtxWords { u with mem := m' } = outermostCtxWords u)
  ∧ (∀ u m', nestedCtxWords { u with mem := m' } = nestedCtxWords u)
  ∧ (outermostPath ic tc s).mem x = s.mem x
  ∧ (nestedPath ic tc s).mem x = s.mem x := by
  refine ⟨fun u y hy => outermostSave_mem_miss u y hy, fun u hb => ?_,
    fun u => outermostSaveContext_activeCtx_eq u,
    fun u y hy => nestedSave_mem_miss u y hy, fun u hb => ?_,
    fun u m' h => outermostSaveDest_mem_congr u m' h,
    fun u m' => rfl, fun u m' => rfl, ?_, ?_⟩
  · refine outermostSave_mem_miss u _ fun j hj => ?_
    rw [w32_eq_of_lt (by omega)]
    omega
  · refine nestedSave_mem_miss u _ fun j hj => ?_
    rw [w32_eq_of_lt (by omega)]
    omega
  · obtain ⟨dmem, dact, dnull⟩ := outermostDump_frame s x (by omega) hframes
    have hdest : ∀ j, j < 19 → x ≠ w32 (outermostSaveDest (outermostDump s) + 4 * j) := by
      intro j hj
      rcases outermostSaveDest_cases (outermostDump s) with hcase | hcase
      · rw [hcase, dnull]
        exact (hctx j hj).2
      · rw [hcase, dact]
        exact (hctx j hj).1
    rw [outermostPath, commonReturnFromTrap_mem, outermostUnderflowRefill_mem,
      outermostRestoreContext_mem, outermostLoadContextPointer_mem,
      outermostClearFlag_mem, outermostDisableTraps_mem,
      handlerDispatch_mem ic tc x hic htc, outermostMakeCallFrame_mem,
      outermostSave_mem_miss _ _ hdest, dmem]
  · have hfp : fp (nestedEnsureFreeFrame s) = w32 (s.win (cwp s.psr) 6) := by
      show w32 ((nestedEnsureFreeFrame s).win
          (cwp (nestedEnsureFreeFrame s).psr) 6) = w32 (s.win (cwp s.psr) 6)
      rw [nestedEnsureFreeFrame_win, nestedEnsureFreeFrame_psr s h2 hn32 hcw hp]
    have hsave : (nestedSaveContext (nestedEnsureFreeFrame s)).mem x
        = (nestedEnsureFreeFrame s).mem x := by
      refine nestedSave_mem_miss _ _ fun j hj => ?_
      rw [nestedSaveDest, hfp]
      exact hnsave j hj
    rw [nestedPath, commonReturnFromTrap_mem, nestedMaybeRefill_mem,
      nestedRestoreContext_mem, nestedDisableTraps_mem,
      handlerDispatch_mem ic tc x hic htc, nestedMakeCallFrame_mem, hsave]
    exact nestedEnsureFreeFrame_mem_frame s x (by omega) hframes

/-- Witness for C10: at the all-zero base state (eight windows, all stack
pointers 0, active record at 0, null record at 80, nested stack record at
2^32 - 80) the address 200 lies outside every written region, and both full
paths with identity collaborators leave the word there unchanged. -/
theorem save_paths_write_only_context_words_witness :
    ((∀ w, w < baseState.nwin → ∀ j, j < 16 →
        200 ≠ w32 (w32 (baseState.win w 6) + 4 * j))
      ∧ (∀ j, j < 19 → 200 ≠ w32 (baseState.activeCtx + 4 * j)
          ∧ 200 ≠ w32 (baseState.nullCtx + 4 * j)))
  ∧ (outermostPath id id baseState).mem 200 = baseState.mem 200
  ∧ (nestedPath id id baseState).mem 200 = baseState.mem 200 :=
  ⟨⟨by decide, by decide⟩,
   (save_paths_write_only_context_words id id baseState 200 (fun _ => rfl) (fun _ => rfl)
     (by decide) (by decide) (by decide) (by decide) (by decide) (by decide)
     (by decide)).2.2.2.2.2.2.2.2.1,
   (save_paths_write_only_context_words id id baseState 200 (fun _ => rfl) (fun _ => rfl)
     (by decide) (by decide) (by decide) (by decide) (by decide) (by decide)
     (by decide)).2.2.2.2.2.2.2.2.2⟩

/-! ## The interrupt nesting flag -/

theorem commonEntry_flag (s : TrapState) : (commonEntry s).inIntCtx = 1 := rfl

theorem dumpIter_flag (s : TrapState) : (dumpIter s).inIntCtx = s.inIntCtx := rfl

theorem outermostDumpLoop_flag (n : Nat) (s : TrapState) :
    (outermostDumpLoop n s).inIntCtx = s.inIntCtx := by
  induction n generalizing s with
  | zero => rfl
  | succ n ih =>
    show (if (dumpIter s).g5 = (dumpIter s).g6 then dumpIter s
        else outermostDumpLoop n (dumpIter s)).inIntCtx = s.inIntCtx
    by_cases h : (dumpIter s).g5 = (dumpIter s).g6
    · rw [if_pos h, dumpIter_flag]
    · rw [if_neg h, ih, dumpIter_flag]

theorem outermostDumpSetup_flag (s : TrapState) :
    (outermostDumpSetup s).inIntCtx = s.inIntCtx := by
  simp only [outermostDumpSetup, wrl_flag]

theorem outermostDump_flag (s : TrapState) : (outermostDump s).inIntCtx = s.inIntCtx := by
  show (outermostDumpFinish (outermostDumpLoop s.nwin (outermostDumpSetup s))).inIntCtx
      = s.inIntCtx
  rw [show ∀ u, (outermostDumpFinish u).inIntCtx = u.inIntCtx from fun _ => rfl,
    outermostDumpLoop_flag, outermostDumpSetup_flag]

theorem outermostSaveContext_flag (s : TrapState) :
    (outermostSaveContext s).inIntCtx = s.inIntCtx := by
  simp only [outermostSaveContext]
  split
  · rfl
  · rfl

theorem handlerDispatch_flag (ic tc : TrapState → TrapState)
    (hic : ∀ v, (ic v).inIntCtx = v.inIntCtx)
    (htc : ∀ v, (tc v).inIntCtx = v.inIntCtx) (s : TrapState) :
    (handlerDispatch ic tc s).inIntCtx = s.inIntCtx := by
  show (if rdl s 3 &&& 32 ≠ 0 then tc (replacementCallEntry s)
      else ic (interruptCallEntry s)).inIntCtx = s.inIntCtx
  by_cases h : rdl s 3 &&& 32 ≠ 0
  · rw [if_pos h, htc]; rfl
  · rw [if_neg h, hic]; rfl

theorem outermostRestoreContext_flag (s : TrapState) :
    (outermostRestoreContext s).inIntCtx = s.inIntCtx := by
  simp only [outermostRestoreContext, wrl_flag, wri_flag]

theorem outermostRefillRotate_flag (s : TrapState) :
    (outermostRefillRotate s).inIntCtx = s.inIntCtx := by
  unfold outermostRefillRotate
  rw [restoreWin_flag, wrwim_flag, wrl_flag, wrl_flag, wrl_flag, wrl_flag]

theorem outermostRefillLoads_flag (s : TrapState) :
    (outermostRefillLoads s).inIntCtx = s.inIntCtx := by
  simp only [outermostRefillLoads, wrl_flag, wri_flag]

theorem outermostRefillSaveBack_flag (s : TrapState) :
    (outermostRefillSaveBack s).inIntCtx = s.inIntCtx := rfl

theorem outermostUnderflowRefill_flag (s : TrapState) :
    (outermostUnderflowRefill s).inIntCtx = s.inIntCtx := by
  rw [outermostUnderflowRefill, outermostRefillSaveBack_flag, outermostRefillLoads_flag,
    outermostRefillRotate_flag]

theorem commonReturnFromTrap_flag (s : TrapState) :
    (commonReturnFromTrap s).inIntCtx = s.inIntCtx := rfl

theorem outermostPath_flag (ic tc : TrapState → TrapState) (s : TrapState) :
    (outermostPath ic tc s).inIntCtx = 0 := by
  rw [outermostPath, commonReturnFromTrap_flag, outermostUnderflowRefill_flag,
    outermostRestoreContext_flag]
  rfl

theorem nwo_flag (s : TrapState) (l5 l7 : Nat) :
    (nestedWindowOverflow s l5 l7).inIntCtx = s.inIntCtx := rfl

theorem nestedEnsureFreeFrame_flag (s : TrapState) :
    (nestedEnsureFreeFrame s).inIntCtx = s.inIntCtx := by
  simp only [nestedEnsureFreeFrame]
  split
  · rfl
  · rw [nwo_flag, wrl_flag, wrl_flag, wrl_flag, wrl_flag]

theorem nestedSaveContext_flag (s : TrapState) :
    (nestedSaveContext s).inIntCtx = s.inIntCtx := rfl

theorem nestedRestoreContext_flag (s : TrapState) :
    (nestedRestoreContext s).inIntCtx = s.inIntCtx := by
  simp only [nestedRestoreContext, wrl_flag, wri_flag]

theorem nestedRefillRotate_flag (s : TrapState) (l4 l5 : Nat) :
    (nestedRefillRotate s l4 l5).inIntCtx = s.inIntCtx := by
  unfold nestedRefillRotate
  rw [restoreWin_flag, wrwim_flag, wrl_flag, wrl_flag]

theorem nestedRefillLoads_flag (s : TrapState) :
    (nestedRefillLoads s).inIntCtx = s.inIntCtx := by
  simp only [nestedRefillLoads, wrl_flag, wri_flag]

theorem nestedMaybeRefill_flag (s : TrapState) :
    (nestedMaybeRefill s).inIntCtx = s.inIntCtx := by
  simp only [nestedMaybeRefill]
  split
  · rfl
  · rw [saveWin_flag, nestedRefillLoads_flag, nestedRefillRotate_flag,
      wrl_flag, wrl_flag, wrl_flag, wrl_flag]

theorem nestedPath_flag (ic tc : TrapState → TrapState)
    (hic : ∀ v, (ic v).inIntCtx = v.inIntCtx)
    (htc : ∀ v, (tc v).inIntCtx = v.inIntCtx) (s : TrapState) :
    (nestedPath ic tc s).inIntCtx = s.inIntCtx := by
  rw [nestedPath, commonReturnFromTrap_flag, nestedMaybeRefill_flag,
    nestedRestoreContext_flag,
    show ∀ u, (nestedDisableTraps u).inIntCtx = u.inIntCtx from fun _ => rfl,
    handlerDispatch_flag ic tc hic htc,
    show ∀ u, (nestedMakeCallFrame u).inIntCtx = u.inIntCtx from fun _ => rfl,
    nestedSaveContext_flag, nestedEnsureFreeFrame_flag]

/-- C3: the `system_in_interrupt_context` flag is stored 1 at every trap
entry before any handling; on the outermost path it is still 1 when the
collaborator is dispatched, and it is stored 0 only by the outermost instance
(after the collaborator call and before the context restore), so the whole
outermost path ends with the flag 0; the nested path never changes it (it
ends with the flag as entered, i.e. 1 after the common entry).  Hence, with
collaborators that do not clear the flag, the full handler leaves the flag 1
exactly when it ran as a nested instance. -/
theorem nesting_flag_discipline (ic tc : TrapState → TrapState)
    (hic : ∀ v, (ic v).inIntCtx = v.inIntCtx)
    (htc : ∀ v, (tc v).inIntCtx = v.inIntCtx) (s : TrapState) :
    (commonEntry s).inIntCtx = 1
  ∧ (outermostMakeCallFrame (outermostSaveContext
      (outermostDump (commonEntry s)))).inIntCtx = 1
  ∧ (∀ u, (nestedPath ic tc u).inIntCtx = u.inIntCtx)
  ∧ (∀ u, (outermostPath ic tc u).inIntCtx = 0)
  ∧ (sparcTaskContextAwareTrapHandler ic tc s).inIntCtx
      = (if w32 s.inIntCtx ≠ 0 then 1 else 0) := by
  have hdisp : (outermostMakeCallFrame (outermostSaveContext
      (outermostDump (commonEntry s)))).inIntCtx = 1 := by
    rw [show ∀ u, (outermostMakeCallFrame u).inIntCtx = u.inIntCtx from fun _ => rfl,
      outermostSaveContext_flag, outermostDump_flag, commonEntry_flag]
  have h5 : rdl (commonEntry s) 5 = w32 s.inIntCtx := by
    by_cases hc : rdl s 3 &&& 32 = 0
    · simp only [commonEntry, if_pos hc]
      rw [rdl_storeFlag, rdl_wrl, if_neg (by decide : ¬(5 = 6)), rdl_wrl, if_pos rfl]
    · simp only [commonEntry, if_neg hc]
      rw [rdl_storeFlag, rdl_wrl, if_neg (by decide : ¬(5 = 6)), rdl_wrl, if_pos rfl,
        wrl_flag, wrl_flag]
  have hmain : (sparcTaskContextAwareTrapHandler ic tc s).inIntCtx
      = (if w32 s.inIntCtx ≠ 0 then 1 else 0) := by
    show (if rdl (commonEntry s) 5 ≠ 0 then nestedPath ic tc (commonEntry s)
        else outermostPath ic tc (commonEntry s)).inIntCtx
      = (if w32 s.inIntCtx ≠ 0 then 1 else 0)
    rw [h5]
    by_cases hz : w32 s.inIntCtx ≠ 0
    · rw [if_pos hz, if_pos hz, nestedPath_flag ic tc hic htc, commonEntry_flag]
    · rw [if_neg hz, if_neg hz, outermostPath_flag]
  exact ⟨commonEntry_flag s, hdisp, fun u => nestedPath_flag ic tc hic htc u,
    fun u => outermostPath_flag ic tc u, hmain⟩

/-- Witness for C3: the identity collaborators preserve the flag; at the
all-zero base state the handler runs as the outermost instance and returns
with the flag cleared. -/
theorem nesting_flag_discipline_witness :
    ((∀ v, (id v : TrapState).inIntCtx = v.inIntCtx)
      ∧ (∀ v, (id v : TrapState).inIntCtx = v.inIntCtx))
  ∧ (commonEntry baseState).inIntCtx = 1
  ∧ (sparcTaskContextAwareTrapHandler id id baseState).inIntCtx
      = (if w32 baseState.inIntCtx ≠ 0 then 1 else 0) :=
  ⟨⟨fun _ => rfl, fun _ => rfl⟩,
   (nesting_flag_discipline id id (fun _ => rfl) (fun _ => rfl) baseState).1,
   (nesting_flag_discipline id id (fun _ => rfl) (fun _ => rfl) baseState).2.2.2.2⟩

end SparcTrap
